import Mathlib

/-!
# water-to-wine controller (`w2w.c`)

A shallow embedding of the dispenser firmware: the bit macros, the sensor
readers, the ten actuator primitives, the five entry actions, the edge
detector `get_transition`, the rule table and the control loop of `main`.

Conventions.
* `unsigned char` values (states, events, recorded flags, registers) are
  natural numbers; register writes are truncated with `% 256`.
* The input register `PINA` is external: every pass of the polling loop of
  `get_transition` sees one sampled value of it (a sensor snapshot), and the
  program is run against a list of such snapshots.  When the list is used up
  inside `get_transition`, the call has not returned.
* `PINA0`, `PINA1`, `PINA2` come from `avr/io.h` and are the bit numbers 0, 1, 2.
-/

namespace W2W

/-! ## Constants -/

abbrev STATE_IDLE : Nat := 1
abbrev STATE_DISPENSE : Nat := 2
abbrev STATE_OUT_OF_WATER : Nat := 3
abbrev STATE_OUT_OF_WINE : Nat := 4
abbrev STATE_OUT_OF_WATER_AND_WINE : Nat := 5

abbrev TRANSITION_DISPENSE_START : Nat := 1
abbrev TRANSITION_DISPENSE_STOP : Nat := 2
abbrev TRANSITION_WATER_HI : Nat := 3
abbrev TRANSITION_WATER_LOW : Nat := 4
abbrev TRANSITION_WINE_HI : Nat := 5
abbrev TRANSITION_WINE_LOW : Nat := 6

/-- Bit number of input line 0 of port A (from `avr/io.h`). -/
abbrev PINA0 : Nat := 0
/-- Bit number of input line 1 of port A (from `avr/io.h`). -/
abbrev PINA1 : Nat := 1
/-- Bit number of input line 2 of port A (from `avr/io.h`). -/
abbrev PINA2 : Nat := 2

/-! ## Bit macros on 8-bit registers -/

/-- The macro `sbi(a, b)`: `a |= 1 << b`, stored back into an 8-bit register. -/
def sbi (a b : Nat) : Nat := (a ||| (1 <<< b)) % 256

/-- The macro `cbi(a, b)`: `a &= ~(1 << b)`; the complement is taken in a
16-bit `int` and the result is stored back into an 8-bit register. -/
def cbi (a b : Nat) : Nat := (a &&& (0xFFFF ^^^ (1 <<< b))) % 256

/-- The macro `tbi(a, b)`: `a ^= 1 << b`, stored back into an 8-bit register. -/
def tbi (a b : Nat) : Nat := (a ^^^ (1 <<< b)) % 256

/-- The C operator `!` on an integer value. -/
def lnot (x : Nat) : Nat := if x = 0 then 1 else 0

/-! ## Transition table -/

structure Transition where
  old_state : Nat
  transition : Nat
  new_state : Nat
deriving DecidableEq, Repr

abbrev NUM_TRANSITIONS : Nat := 12

def transition_table : List Transition :=
  [ ⟨STATE_IDLE, TRANSITION_DISPENSE_START, STATE_DISPENSE⟩,
    ⟨STATE_IDLE, TRANSITION_WINE_LOW, STATE_OUT_OF_WINE⟩,
    ⟨STATE_IDLE, TRANSITION_WATER_LOW, STATE_OUT_OF_WATER⟩,
    ⟨STATE_DISPENSE, TRANSITION_DISPENSE_STOP, STATE_IDLE⟩,
    ⟨STATE_DISPENSE, TRANSITION_WINE_LOW, STATE_OUT_OF_WINE⟩,
    ⟨STATE_DISPENSE, TRANSITION_WATER_LOW, STATE_OUT_OF_WATER⟩,
    ⟨STATE_OUT_OF_WINE, TRANSITION_WINE_HI, STATE_IDLE⟩,
    ⟨STATE_OUT_OF_WINE, TRANSITION_WATER_LOW, STATE_OUT_OF_WATER_AND_WINE⟩,
    ⟨STATE_OUT_OF_WATER, TRANSITION_WATER_HI, STATE_IDLE⟩,
    ⟨STATE_OUT_OF_WATER, TRANSITION_WINE_LOW, STATE_OUT_OF_WATER_AND_WINE⟩,
    ⟨STATE_OUT_OF_WATER_AND_WINE, TRANSITION_WATER_HI, STATE_OUT_OF_WINE⟩,
    ⟨STATE_OUT_OF_WATER_AND_WINE, TRANSITION_WINE_HI, STATE_OUT_OF_WATER⟩ ]

/-! ## Sensor readers -/

/-- Reader `is_dispense`: `!(PINA & (1<<PINA0))` for the sampled register value. -/
def is_dispense (pina : Nat) : Nat := lnot (pina &&& (1 <<< PINA0))

/-- Reader `is_water_low`: `!(PINA & (1<<PINA1))` for the sampled register value. -/
def is_water_low (pina : Nat) : Nat := lnot (pina &&& (1 <<< PINA1))

/-- Reader `is_wine_low`: `!(PINA & (1<<PINA2))` for the sampled register value. -/
def is_wine_low (pina : Nat) : Nat := lnot (pina &&& (1 <<< PINA2))

/-! ## Output side of the hardware -/

/-- The registers the program writes, and the number of `_delay_ms(10)` calls
completed so far. -/
structure Hw where
  porta : Nat
  portb : Nat
  portd : Nat
  ddra : Nat
  ddrb : Nat
  ddrd : Nat
  delays : Nat
deriving DecidableEq, Repr

def water_on (h : Hw) : Hw := { h with portb := sbi h.portb 2 }
def water_off (h : Hw) : Hw := { h with portb := cbi h.portb 2 }
def wine_on (h : Hw) : Hw := { h with portb := sbi h.portb 3 }
def wine_off (h : Hw) : Hw := { h with portb := cbi h.portb 3 }
def power_led_on (h : Hw) : Hw := { h with porta := sbi h.porta 7 }
def power_led_off (h : Hw) : Hw := { h with porta := cbi h.porta 7 }
def wine_led_on (h : Hw) : Hw := { h with porta := sbi h.porta 6 }
def wine_led_off (h : Hw) : Hw := { h with porta := cbi h.porta 6 }
def water_led_on (h : Hw) : Hw := { h with porta := sbi h.porta 5 }
def water_led_off (h : Hw) : Hw := { h with porta := cbi h.porta 5 }

/-- The library call `_delay_ms(10)`: only its count is kept. -/
def delay_ms_10 (h : Hw) : Hw := { h with delays := h.delays + 1 }

/-! ## Entry actions -/

def state_idle (h : Hw) : Hw :=
  water_led_off (wine_led_off (power_led_on (wine_off (water_off h))))

def state_dispense (h : Hw) : Hw :=
  wine_on (water_on h)

def state_out_of_wine (h : Hw) : Hw :=
  water_led_off (wine_led_on (wine_off (water_off h)))

def state_out_of_water_and_wine (h : Hw) : Hw :=
  water_led_on (wine_led_on h)

def state_out_of_water (h : Hw) : Hw :=
  wine_led_off (water_led_on (wine_off (water_off h)))

/-! ## Edge detector -/

/-- The three `static` variables of `get_transition`. -/
structure Detector where
  water_float : Nat
  wine_float : Nat
  dispense_switch : Nat
deriving DecidableEq, Repr

/-- Values of the statics at power-up. -/
def Detector.boot : Detector := ⟨0, 0, 0⟩

/-- One pass through the body of the `for(;;)` of `get_transition` against the
sampled input `pina`: `some (event, statics)` when the pass returns, `none`
when it falls through to `_delay_ms(10)`. -/
def get_transition_pass (d : Detector) (pina : Nat) : Option (Nat × Detector) :=
  if is_water_low pina ≠ d.water_float then
    let water_float := lnot d.water_float
    some (if water_float ≠ 0 then TRANSITION_WATER_LOW else TRANSITION_WATER_HI,
          { d with water_float := water_float })
  else if is_wine_low pina ≠ d.wine_float then
    let wine_float := lnot d.wine_float
    some (if wine_float ≠ 0 then TRANSITION_WINE_LOW else TRANSITION_WINE_HI,
          { d with wine_float := wine_float })
  else if is_dispense pina ≠ d.dispense_switch then
    let dispense_switch := lnot d.dispense_switch
    some (if dispense_switch ≠ 0 then TRANSITION_DISPENSE_START else TRANSITION_DISPENSE_STOP,
          { d with dispense_switch := dispense_switch })
  else none

/-- What a returned call of `get_transition` leaves behind: the event, the
statics, the snapshots not yet sampled and the number of `_delay_ms(10)` calls
it made. -/
structure Polled where
  trans : Nat
  det : Detector
  rest : List Nat
  delays : Nat
deriving DecidableEq, Repr

/-- Function `get_transition` run against the snapshots `pins`, one per pass of its
loop; `none` when every snapshot was sampled without a return. -/
def get_transition (d : Detector) : List Nat → Option Polled
  | [] => none
  | pina :: rest =>
    match get_transition_pass d pina with
    | some (ev, d') => some ⟨ev, d', rest, 0⟩
    | none =>
      match get_transition d rest with
      | some r => some { r with delays := r.delays + 1 }
      | none => none

/-! ## Startup -/

/-- Function `pin_setup`: the three data-direction writes.  (Its write to the input
register `PINA` is not modelled: `PINA` is external input here.) -/
def pin_setup (h : Hw) : Hw :=
  { h with
    ddrb := (h.ddrb ||| ((1 <<< 3) ||| (1 <<< 2))) % 256
    ddra := (h.ddra ||| ((1 <<< 5) ||| (1 <<< 6) ||| (1 <<< 7))) % 256
    ddrd := (h.ddrd ||| (1 <<< 7)) % 256 }

/-- The loop `for(i = 0; i < 10; i++) _delay_ms(10);`, from a given `i`. -/
def delay_loop : Nat → Nat → Hw → Hw
  | 0, _, h => h
  | fuel + 1, i, h => if i < 10 then delay_loop fuel (i + 1) (delay_ms_10 h) else h

/-- The body of the outer loop of `flash_led`. -/
def flash_led_body (h : Hw) : Hw :=
  let h := power_led_on (water_led_on (wine_led_on h))
  let h := { h with portd := cbi h.portd 7 }
  let h := delay_loop 256 0 h
  let h := power_led_off (water_led_off (wine_led_off h))
  let h := { h with portd := sbi h.portd 7 }
  delay_loop 256 0 h

/-- The loop `for(j = 0; j < num; j++)` of `flash_led`, from a given `j`; the
counter is an `unsigned char`, so 256 steps of fuel cover every run. -/
def flash_led_loop (num : Nat) : Nat → Nat → Hw → Hw
  | 0, _, h => h
  | fuel + 1, j, h =>
    if j < num then flash_led_loop num fuel ((j + 1) % 256) (flash_led_body h) else h

def flash_led (num : Nat) (h : Hw) : Hw := flash_led_loop num 256 0 h

/-! ## Control loop -/

/-- The five entry-action functions, as names in the call log. -/
inductive EntryAction
  | state_idle
  | state_dispense
  | state_out_of_water
  | state_out_of_wine
  | state_out_of_water_and_wine
deriving DecidableEq, Repr

/-- Everything `main` holds at the head of its `for(;;)`: the locals `state`
and `new_state`, the output side of the hardware, the statics of the detector,
and a log of the entry-action functions called so far (latest last). -/
structure Config where
  state : Nat
  new_state : Nat
  hw : Hw
  det : Detector
  calls : List EntryAction
deriving DecidableEq, Repr

/-- The inner `for(i = 0; i < NUM_TRANSITIONS; i++)` scan over a table: the
`new_state` of the first entry whose `old_state` and `transition` match. -/
def scan_table : List Transition → Nat → Nat → Option Nat
  | [], _, _ => none
  | t :: ts, state, ev =>
    if t.old_state = state ∧ t.transition = ev then some t.new_state
    else scan_table ts state ev

/-- The scan of `main` over `transition_table`. -/
def table_lookup (state trans : Nat) : Option Nat :=
  scan_table transition_table state trans

/-- The `switch(new_state)` of `main`. -/
def switch_new_state (c : Config) : Config :=
  if c.new_state = STATE_IDLE then
    { c with hw := state_idle c.hw, calls := c.calls ++ [EntryAction.state_idle] }
  else if c.new_state = STATE_DISPENSE then
    { c with hw := state_dispense c.hw, calls := c.calls ++ [EntryAction.state_dispense] }
  else if c.new_state = STATE_OUT_OF_WATER then
    { c with hw := state_out_of_water c.hw, calls := c.calls ++ [EntryAction.state_out_of_water] }
  else if c.new_state = STATE_OUT_OF_WINE then
    { c with hw := state_out_of_wine c.hw, calls := c.calls ++ [EntryAction.state_out_of_wine] }
  else if c.new_state = STATE_OUT_OF_WATER_AND_WINE then
    { c with hw := state_out_of_water_and_wine c.hw,
             calls := c.calls ++ [EntryAction.state_out_of_water_and_wine] }
  else c

/-- The body of the `for(;;)` of `main` after `get_transition` has returned
`trans`: table scan, `switch`, `state = new_state`. -/
def main_iter (c : Config) (trans : Nat) : Config :=
  let c1 : Config :=
    match table_lookup c.state trans with
    | some ns => { c with new_state := ns }
    | none => c
  let c2 := switch_new_state c1
  { c2 with state := c2.new_state }

/-- The configuration of `main` on reaching its `for(;;)`, from the register
values `h` present at reset. -/
def main_init (h : Hw) : Config :=
  { state := STATE_IDLE
    new_state := 0
    hw := state_idle (flash_led 3 (pin_setup h))
    det := Detector.boot
    calls := [EntryAction.state_idle] }

/-- The control loop fed a given sequence of events, one iteration each. -/
def run_events (c : Config) (events : List Nat) : Config :=
  events.foldl main_iter c

/-- The control loop of `main` with `get_transition` as the source of events:
at most `n` iterations against the snapshots `pins`.  When the snapshots run
out inside `get_transition` the iteration is not completed and the
configuration at the head of the loop is the result. -/
def main_loop : Nat → Config → List Nat → Config
  | 0, c, _ => c
  | n + 1, c, pins =>
    match get_transition c.det pins with
    | none => c
    | some r =>
      let c1 : Config :=
        { c with det := r.det, hw := { c.hw with delays := c.hw.delays + r.delays } }
      main_loop n (main_iter c1 r.trans) r.rest

/-- The events returned by the first `n` calls of `get_transition` against the
snapshots `pins`, in order (fewer when the snapshots run out). -/
def emitted : Nat → Detector → List Nat → List Nat
  | 0, _, _ => []
  | n + 1, d, pins =>
    match get_transition d pins with
    | none => []
    | some r => r.trans :: emitted n r.det r.rest

/-! ## Predicates used in the statements -/

/-- Water output line (PORTB bit 2) is driven high. -/
def water_is_on (h : Hw) : Bool := h.portb.testBit 2

/-- Wine output line (PORTB bit 3) is driven high. -/
def wine_is_on (h : Hw) : Bool := h.portb.testBit 3

/-- The value is one of the five machine states. -/
def is_machine_state (s : Nat) : Bool :=
  s == STATE_IDLE || s == STATE_DISPENSE || s == STATE_OUT_OF_WATER ||
  s == STATE_OUT_OF_WINE || s == STATE_OUT_OF_WATER_AND_WINE

/-- A list of events alternates `a, b, a, b, ...`, beginning with `a`. -/
def alternates (a b : Nat) : List Nat → Bool
  | [] => true
  | x :: xs => x == a && alternates b a xs

/-- The entry-action function the `switch` of `main` selects for a value of
`new_state`, if any. -/
def entry_action_of (s : Nat) : Option EntryAction :=
  if s = STATE_IDLE then some EntryAction.state_idle
  else if s = STATE_DISPENSE then some EntryAction.state_dispense
  else if s = STATE_OUT_OF_WATER then some EntryAction.state_out_of_water
  else if s = STATE_OUT_OF_WINE then some EntryAction.state_out_of_wine
  else if s = STATE_OUT_OF_WATER_AND_WINE then some EntryAction.state_out_of_water_and_wine
  else none

/-- Effect of an entry-action function on the hardware. -/
def EntryAction.apply : EntryAction → Hw → Hw
  | EntryAction.state_idle => W2W.state_idle
  | EntryAction.state_dispense => W2W.state_dispense
  | EntryAction.state_out_of_water => W2W.state_out_of_water
  | EntryAction.state_out_of_wine => W2W.state_out_of_wine
  | EntryAction.state_out_of_water_and_wine => W2W.state_out_of_water_and_wine

/-- Register values at reset used in the concrete runs. -/
def hw_reset : Hw := ⟨0, 0, 0, 0, 0, 0, 0⟩

/-- The value of `new_state` after the table scan of an iteration. -/
def scanned (c : Config) (e : Nat) : Nat :=
  match table_lookup c.state e with
  | some ns => ns
  | none => c.new_state

/-- What holds of every configuration at the head of the control loop, whatever
events were fed: `new_state` carries the current state (or is still 0 at
power-up), the pump lines follow the state, and the outputs already have the
pattern of the entry action that `new_state` selects. -/
structure LoopInv (c : Config) : Prop where
  carried : c.new_state = c.state ∨ (c.state = STATE_IDLE ∧ c.new_state = 0)
  pumps_on : c.state = STATE_DISPENSE → water_is_on c.hw = true ∧ wine_is_on c.hw = true
  pumps_off : c.state ≠ STATE_DISPENSE → water_is_on c.hw = false ∧ wine_is_on c.hw = false
  settled : ∀ a, entry_action_of c.new_state = some a → a.apply c.hw = c.hw

/-- The 30 pairs of a machine state and an event. -/
def all_pairs : List (Nat × Nat) :=
  List.product [STATE_IDLE, STATE_DISPENSE, STATE_OUT_OF_WATER, STATE_OUT_OF_WINE,
      STATE_OUT_OF_WATER_AND_WINE]
    [TRANSITION_DISPENSE_START, TRANSITION_DISPENSE_STOP, TRANSITION_WATER_HI,
      TRANSITION_WATER_LOW, TRANSITION_WINE_HI, TRANSITION_WINE_LOW]

/-- Number of flags whose live reading in the snapshot `pina` differs from the
recorded value. -/
def differing (d : Detector) (pina : Nat) : Nat :=
  (if is_water_low pina ≠ d.water_float then 1 else 0) +
  (if is_wine_low pina ≠ d.wine_float then 1 else 0) +
  (if is_dispense pina ≠ d.dispense_switch then 1 else 0)

/-- The events of a list that concern the water flag. -/
def water_events (es : List Nat) : List Nat :=
  es.filter (fun e => e == TRANSITION_WATER_LOW || e == TRANSITION_WATER_HI)

/-- The events of a list that concern the wine flag. -/
def wine_events (es : List Nat) : List Nat :=
  es.filter (fun e => e == TRANSITION_WINE_LOW || e == TRANSITION_WINE_HI)

/-- The events of a list that concern the dispense flag. -/
def dispense_events (es : List Nat) : List Nat :=
  es.filter (fun e => e == TRANSITION_DISPENSE_START || e == TRANSITION_DISPENSE_STOP)

/-- What holds of every configuration at the head of the control loop when the
events come from `get_transition`: either nothing has been handled yet, or
`new_state` carries the state and the state is the one that goes with the
recorded water and wine flags. -/
structure Coherent (c : Config) : Prop where
  tracks :
    (c.state = STATE_IDLE ∧ c.new_state = 0 ∧ c.det = Detector.boot) ∨
    (c.new_state = c.state ∧
      (((c.state = STATE_IDLE ∨ c.state = STATE_DISPENSE) ∧
          c.det.water_float = 0 ∧ c.det.wine_float = 0) ∨
       (c.state = STATE_OUT_OF_WATER ∧ c.det.water_float = 1 ∧ c.det.wine_float = 0) ∨
       (c.state = STATE_OUT_OF_WINE ∧ c.det.water_float = 0 ∧ c.det.wine_float = 1) ∨
       (c.state = STATE_OUT_OF_WATER_AND_WINE ∧ c.det.water_float = 1 ∧
          c.det.wine_float = 1)))

/-- Power LED line (PORTA bit 7) is driven high. -/
def power_led_is_on (h : Hw) : Bool := h.porta.testBit 7

/-- Wine-low LED line (PORTA bit 6) is driven high. -/
def wine_led_is_on (h : Hw) : Bool := h.porta.testBit 6

/-- Water-low LED line (PORTA bit 5) is driven high. -/
def water_led_is_on (h : Hw) : Bool := h.porta.testBit 5

/-- The primitive `f` writes the value `v` to bit `b` of PORTA and nothing
else: the other seven bits of PORTA and every other register are as before, and
a second application changes nothing. -/
def writes_porta_bit (f : Hw → Hw) (b : Nat) (v : Bool) : Prop :=
  ∀ h : Hw,
    (f h).porta.testBit b = v ∧
    (∀ i, i < 8 → i ≠ b → (f h).porta.testBit i = h.porta.testBit i) ∧
    (f h).porta < 256 ∧
    (f h).portb = h.portb ∧ (f h).portd = h.portd ∧
    (f h).ddra = h.ddra ∧ (f h).ddrb = h.ddrb ∧ (f h).ddrd = h.ddrd ∧
    (f h).delays = h.delays ∧
    f (f h) = f h

/-- The primitive `f` writes the value `v` to bit `b` of PORTB and nothing
else: the other seven bits of PORTB and every other register are as before, and
a second application changes nothing. -/
def writes_portb_bit (f : Hw → Hw) (b : Nat) (v : Bool) : Prop :=
  ∀ h : Hw,
    (f h).portb.testBit b = v ∧
    (∀ i, i < 8 → i ≠ b → (f h).portb.testBit i = h.portb.testBit i) ∧
    (f h).portb < 256 ∧
    (f h).porta = h.porta ∧ (f h).portd = h.portd ∧
    (f h).ddra = h.ddra ∧ (f h).ddrb = h.ddrb ∧ (f h).ddrd = h.ddrd ∧
    (f h).delays = h.delays ∧
    f (f h) = f h

/-- The indicators report the state: what holds of the three LED lines in every
configuration at the head of the control loop. -/
structure LedInv (c : Config) : Prop where
  wine_led : wine_led_is_on c.hw = true ↔
    (c.state = STATE_OUT_OF_WINE ∨ c.state = STATE_OUT_OF_WATER_AND_WINE)
  water_led : water_led_is_on c.hw = true ↔
    (c.state = STATE_OUT_OF_WATER ∨ c.state = STATE_OUT_OF_WATER_AND_WINE)
  power_led : power_led_is_on c.hw = true

/-- First half of a blink cycle of `flash_led`, up to the first delay loop:
the three indicators are switched on and PORTD bit 7 is cleared. -/
def flash_on_phase (h : Hw) : Hw :=
  let h := power_led_on (water_led_on (wine_led_on h))
  { h with portd := cbi h.portd 7 }

/-- Second half of a blink cycle of `flash_led`, up to the second delay loop:
the three indicators are switched off and PORTD bit 7 is set. -/
def flash_off_phase (h : Hw) : Hw :=
  let h := power_led_off (water_led_off (wine_led_off h))
  { h with portd := sbi h.portd 7 }

/-- Ten completed calls of `_delay_ms(10)`. -/
def ten_delays (h : Hw) : Hw := { h with delays := h.delays + 10 }

/-- The statics of `get_transition` and the snapshots not yet sampled after the
first `n` calls against `pins` (fewer when the snapshots run out). -/
def polled_after : Nat → Detector → List Nat → Detector × List Nat
  | 0, d, pins => (d, pins)
  | n + 1, d, pins =>
    match get_transition d pins with
    | none => (d, pins)
    | some r => polled_after n r.det r.rest

/-- Each recorded flag holds 0 or 1. -/
def flags_boolean (d : Detector) : Prop :=
  (d.water_float = 0 ∨ d.water_float = 1) ∧ (d.wine_float = 0 ∨ d.wine_float = 1) ∧
  (d.dispense_switch = 0 ∨ d.dispense_switch = 1)

/-! ## Bits of the register macros -/

theorem lnot_le_one (x : Nat) : lnot x = 0 ∨ lnot x = 1 := by
  unfold lnot; split <;> simp

theorem testBit_one_shift (b i : Nat) :
    (decide (b ≤ i) && Nat.testBit 1 (i - b)) = decide (b = i) := by
  by_cases h : b = i
  · subst h; simp
  · by_cases h2 : b ≤ i
    · have h3 : i - b ≠ 0 := by omega
      have h4 : Nat.testBit 1 (i - b) = false := by
        rw [Bool.eq_false_iff]
        intro hc
        exact h3 (Nat.testBit_one_eq_true_iff_self_eq_zero.mp hc)
      simp [h, h4]
    · simp [h, h2]

theorem testBit_sbi (a b i : Nat) :
    (sbi a b).testBit i = (decide (i < 8) && (a.testBit i || decide (b = i))) := by
  unfold sbi
  rw [show (256 : Nat) = 2 ^ 8 from rfl, Nat.testBit_mod_two_pow, Nat.testBit_or,
    Nat.testBit_shiftLeft, testBit_one_shift]

theorem testBit_cbi (a b i : Nat) :
    (cbi a b).testBit i = (decide (i < 8) && (a.testBit i && !decide (b = i))) := by
  unfold cbi
  rw [show (256 : Nat) = 2 ^ 8 from rfl, Nat.testBit_mod_two_pow, Nat.testBit_and,
    Nat.testBit_xor, Nat.testBit_shiftLeft, testBit_one_shift]
  by_cases h8 : i < 8
  · have h16 : Nat.testBit 65535 i = true := by
      interval_cases i <;> decide
    simp [h16, h8]
  · simp [h8]

/-! ## Entry actions: re-application and pump lines -/

theorem state_idle_idem (h : Hw) : state_idle (state_idle h) = state_idle h := by
  simp only [state_idle, water_off, wine_off, power_led_on, wine_led_off, water_led_off]
  congr 1
  · apply Nat.eq_of_testBit_eq; intro i
    simp only [testBit_sbi, testBit_cbi]
    cases h.porta.testBit i <;> cases decide (i < 8) <;> cases decide (7 = i) <;>
      cases decide (6 = i) <;> cases decide (5 = i) <;> rfl
  · apply Nat.eq_of_testBit_eq; intro i
    simp only [testBit_sbi, testBit_cbi]
    cases h.portb.testBit i <;> cases decide (i < 8) <;> cases decide (2 = i) <;>
      cases decide (3 = i) <;> rfl

theorem state_dispense_idem (h : Hw) :
    state_dispense (state_dispense h) = state_dispense h := by
  simp only [state_dispense, water_on, wine_on]
  congr 1
  apply Nat.eq_of_testBit_eq; intro i
  simp only [testBit_sbi, testBit_cbi]
  cases h.portb.testBit i <;> cases decide (i < 8) <;> cases decide (2 = i) <;>
    cases decide (3 = i) <;> rfl

theorem state_out_of_wine_idem (h : Hw) :
    state_out_of_wine (state_out_of_wine h) = state_out_of_wine h := by
  simp only [state_out_of_wine, water_off, wine_off, wine_led_on, water_led_off]
  congr 1
  · apply Nat.eq_of_testBit_eq; intro i
    simp only [testBit_sbi, testBit_cbi]
    cases h.porta.testBit i <;> cases decide (i < 8) <;>
      cases decide (6 = i) <;> cases decide (5 = i) <;> rfl
  · apply Nat.eq_of_testBit_eq; intro i
    simp only [testBit_sbi, testBit_cbi]
    cases h.portb.testBit i <;> cases decide (i < 8) <;> cases decide (2 = i) <;>
      cases decide (3 = i) <;> rfl

theorem state_out_of_water_idem (h : Hw) :
    state_out_of_water (state_out_of_water h) = state_out_of_water h := by
  simp only [state_out_of_water, water_off, wine_off, wine_led_off, water_led_on]
  congr 1
  · apply Nat.eq_of_testBit_eq; intro i
    simp only [testBit_sbi, testBit_cbi]
    cases h.porta.testBit i <;> cases decide (i < 8) <;>
      cases decide (6 = i) <;> cases decide (5 = i) <;> rfl
  · apply Nat.eq_of_testBit_eq; intro i
    simp only [testBit_sbi, testBit_cbi]
    cases h.portb.testBit i <;> cases decide (i < 8) <;> cases decide (2 = i) <;>
      cases decide (3 = i) <;> rfl

theorem state_out_of_water_and_wine_idem (h : Hw) :
    state_out_of_water_and_wine (state_out_of_water_and_wine h) =
      state_out_of_water_and_wine h := by
  simp only [state_out_of_water_and_wine, wine_led_on, water_led_on]
  congr 1
  apply Nat.eq_of_testBit_eq; intro i
  simp only [testBit_sbi, testBit_cbi]
  cases h.porta.testBit i <;> cases decide (i < 8) <;>
    cases decide (6 = i) <;> cases decide (5 = i) <;> rfl

theorem entry_apply_idem (a : EntryAction) (h : Hw) : a.apply (a.apply h) = a.apply h := by
  cases a
  · exact state_idle_idem h
  · exact state_dispense_idem h
  · exact state_out_of_water_idem h
  · exact state_out_of_wine_idem h
  · exact state_out_of_water_and_wine_idem h

theorem pumps_state_idle (h : Hw) :
    water_is_on (state_idle h) = false ∧ wine_is_on (state_idle h) = false := by
  simp [water_is_on, wine_is_on, state_idle, water_off, wine_off, power_led_on, wine_led_off,
    water_led_off, testBit_cbi]

theorem pumps_state_dispense (h : Hw) :
    water_is_on (state_dispense h) = true ∧ wine_is_on (state_dispense h) = true := by
  simp [water_is_on, wine_is_on, state_dispense, water_on, wine_on, testBit_sbi]

theorem pumps_state_out_of_wine (h : Hw) :
    water_is_on (state_out_of_wine h) = false ∧ wine_is_on (state_out_of_wine h) = false := by
  simp [water_is_on, wine_is_on, state_out_of_wine, water_off, wine_off, wine_led_on,
    water_led_off, testBit_cbi]

theorem pumps_state_out_of_water (h : Hw) :
    water_is_on (state_out_of_water h) = false ∧ wine_is_on (state_out_of_water h) = false := by
  simp [water_is_on, wine_is_on, state_out_of_water, water_off, wine_off, wine_led_off,
    water_led_on, testBit_cbi]

theorem pumps_state_out_of_water_and_wine (h : Hw) :
    water_is_on (state_out_of_water_and_wine h) = water_is_on h ∧
      wine_is_on (state_out_of_water_and_wine h) = wine_is_on h := by
  simp [water_is_on, wine_is_on, state_out_of_water_and_wine, wine_led_on, water_led_on]

/-! ## The table scan and one iteration of the control loop -/

theorem scan_table_some (tbl : List Transition) (s e ns : Nat)
    (h : scan_table tbl s e = some ns) : (⟨s, e, ns⟩ : Transition) ∈ tbl := by
  induction tbl with
  | nil => simp [scan_table] at h
  | cons r rs ih =>
    unfold scan_table at h
    split at h
    · next hm =>
      obtain ⟨h1, h2⟩ := hm
      have h3 : r.new_state = ns := by simpa using h
      have : r = ⟨s, e, ns⟩ := by
        cases r; simp_all
      rw [this]; exact List.mem_cons_self _ _
    · exact List.mem_cons_of_mem _ (ih h)

theorem table_lookup_some (s e ns : Nat) (h : table_lookup s e = some ns) :
    (⟨s, e, ns⟩ : Transition) ∈ transition_table :=
  scan_table_some _ _ _ _ h

theorem table_lookup_iff (s e ns : Nat) :
    table_lookup s e = some ns ↔ (⟨s, e, ns⟩ : Transition) ∈ transition_table := by
  constructor
  · exact table_lookup_some s e ns
  · intro h
    simp only [transition_table, List.mem_cons, Transition.mk.injEq, List.mem_singleton,
      List.not_mem_nil, or_false] at h
    rcases h with h | h | h | h | h | h | h | h | h | h | h | h <;>
      (obtain ⟨h1, h2, h3⟩ := h; subst h1; subst h2; subst h3; rfl)

theorem switch_new_state_eq (c : Config) :
    switch_new_state c =
      match entry_action_of c.new_state with
      | some a => { c with hw := a.apply c.hw, calls := c.calls ++ [a] }
      | none => c := by
  unfold switch_new_state entry_action_of
  split_ifs <;> rfl

theorem main_iter_eq (c : Config) (e : Nat) :
    main_iter c e =
      match entry_action_of (scanned c e) with
      | some a => { c with state := scanned c e, new_state := scanned c e,
                           hw := a.apply c.hw, calls := c.calls ++ [a] }
      | none => { c with state := scanned c e, new_state := scanned c e } := by
  unfold main_iter scanned
  simp only [switch_new_state_eq]
  cases h : table_lookup c.state e <;> simp only <;> split <;> simp_all

theorem loopInv_main_init (h : Hw) : LoopInv (main_init h) := by
  refine ⟨Or.inr ⟨rfl, rfl⟩, ?_, ?_, ?_⟩
  · intro hc; simp [main_init] at hc
  · intro _; exact pumps_state_idle _
  · intro a ha; simp [main_init, entry_action_of] at ha

theorem scanned_none (c : Config) (e : Nat) (h : table_lookup c.state e = none) :
    scanned c e = c.new_state := by
  simp [scanned, h]

theorem scanned_some (c : Config) (e ns : Nat) (h : table_lookup c.state e = some ns) :
    scanned c e = ns := by
  simp [scanned, h]

theorem loopInv_main_iter (c : Config) (e : Nat) (hc : LoopInv c) :
    LoopInv (main_iter c e) := by
  rw [main_iter_eq]
  cases hl : table_lookup c.state e with
  | none =>
    rw [scanned_none c e hl]
    cases ha : entry_action_of c.new_state with
    | none =>
      simp only
      rcases hc.carried with h1 | ⟨h1, h2⟩
      · refine ⟨Or.inl rfl, ?_, ?_, ?_⟩
        · intro h; exact hc.pumps_on (h1 ▸ h)
        · intro h; exact hc.pumps_off (h1 ▸ h)
        · intro a h; simp [ha] at h
      · refine ⟨Or.inl rfl, ?_, ?_, ?_⟩
        · intro h; simp [h2] at h
        · intro _; exact hc.pumps_off (by simp [h1])
        · intro a h; simp [ha] at h
    | some a =>
      simp only
      have hs := hc.settled a ha
      rcases hc.carried with h1 | ⟨h1, h2⟩
      · refine ⟨Or.inl rfl, ?_, ?_, ?_⟩
        · intro h; rw [hs]; exact hc.pumps_on (h1 ▸ h)
        · intro h; rw [hs]; exact hc.pumps_off (h1 ▸ h)
        · intro b hb
          have : b = a := by simpa [ha] using hb.symm
          subst this; simp only; rw [hs, hs]
      · simp [h2, entry_action_of] at ha
  | some ns =>
    rw [scanned_some c e ns hl]
    have hm := table_lookup_some _ _ _ hl
    simp only [transition_table, List.mem_cons, Transition.mk.injEq, List.mem_singleton,
      List.not_mem_nil, or_false] at hm
    have hoff := hc.pumps_off
    rcases hm with h | h | h | h | h | h | h | h | h | h | h | h <;>
      obtain ⟨h1, h2, h3⟩ := h <;> subst h3 <;>
      simp only [entry_action_of, STATE_IDLE, STATE_DISPENSE, STATE_OUT_OF_WATER,
        STATE_OUT_OF_WINE, STATE_OUT_OF_WATER_AND_WINE] <;>
      refine ⟨Or.inl rfl, ?_, ?_, ?_⟩ <;>
      simp [EntryAction.apply, entry_action_of, pumps_state_idle, pumps_state_dispense,
        pumps_state_out_of_wine, pumps_state_out_of_water, pumps_state_out_of_water_and_wine,
        state_idle_idem, state_dispense_idem, state_out_of_wine_idem, state_out_of_water_idem,
        state_out_of_water_and_wine_idem, h1, hoff]

theorem loopInv_run_events (c : Config) (es : List Nat) (hc : LoopInv c) :
    LoopInv (run_events c es) := by
  induction es generalizing c with
  | nil => exact hc
  | cons e es ih => exact ih (main_iter c e) (loopInv_main_iter c e hc)

/-! ## Claims about the control loop fed arbitrary events -/

theorem carried_after_iteration (c : Config) (es : List Nat) (hne : es ≠ []) :
    (run_events c es).new_state = (run_events c es).state := by
  induction es generalizing c with
  | nil => exact absurd rfl hne
  | cons e es ih =>
    by_cases hes : es = []
    · subst hes
      show (main_iter c e).new_state = (main_iter c e).state
      rw [main_iter_eq]; split <;> rfl
    · exact ih (main_iter c e) hes

theorem main_iter_unmatched (c : Config) (t : Nat) (hno : table_lookup c.state t = none) :
    main_iter c t =
      match entry_action_of c.new_state with
      | some a => { c with state := c.new_state, hw := a.apply c.hw, calls := c.calls ++ [a] }
      | none => { c with state := c.new_state } := by
  rw [main_iter_eq, scanned_none c t hno]

/-- C2: in every configuration reached from power-up by feeding the control
loop any sequence of events, PORTB bit 2 (water) and PORTB bit 3 (wine) are both
1 when the state is Dispensing and both 0 when the state is anything else. -/
theorem C2_pumps_follow_state (h : Hw) (es : List Nat) :
    ((run_events (main_init h) es).state = STATE_DISPENSE →
        water_is_on (run_events (main_init h) es).hw = true ∧
        wine_is_on (run_events (main_init h) es).hw = true) ∧
    ((run_events (main_init h) es).state ≠ STATE_DISPENSE →
        water_is_on (run_events (main_init h) es).hw = false ∧
        wine_is_on (run_events (main_init h) es).hw = false) :=
  ⟨(loopInv_run_events _ es (loopInv_main_init h)).pumps_on,
   (loopInv_run_events _ es (loopInv_main_init h)).pumps_off⟩

theorem C2_pumps_follow_state_witness :
    (water_is_on (run_events (main_init hw_reset) [TRANSITION_DISPENSE_START]).hw = true ∧
      wine_is_on (run_events (main_init hw_reset) [TRANSITION_DISPENSE_START]).hw = true) ∧
    (water_is_on (run_events (main_init hw_reset)
        [TRANSITION_DISPENSE_START, TRANSITION_WATER_LOW]).hw = false ∧
      wine_is_on (run_events (main_init hw_reset)
        [TRANSITION_DISPENSE_START, TRANSITION_WATER_LOW]).hw = false) :=
  ⟨(C2_pumps_follow_state hw_reset [TRANSITION_DISPENSE_START]).1 (by decide),
   (C2_pumps_follow_state hw_reset [TRANSITION_DISPENSE_START, TRANSITION_WATER_LOW]).2
     (by decide)⟩

/-- C4: the lookup of the control loop is the rule table of the specification:
the table has 12 rules with pairwise distinct (from-state, event) keys, a lookup
finds a target exactly when that (state, event, target) triple is a rule, the
twelve listed pairs map to the listed targets, and the other 18 of the 30
(state, event) pairs find no rule. -/
theorem C4_lookup_is_rule_table :
    transition_table.length = NUM_TRANSITIONS ∧ NUM_TRANSITIONS = 12 ∧
    (transition_table.map (fun r => (r.old_state, r.transition))).Nodup ∧
    (∀ s e ns, table_lookup s e = some ns ↔ (⟨s, e, ns⟩ : Transition) ∈ transition_table) ∧
    table_lookup STATE_IDLE TRANSITION_DISPENSE_START = some STATE_DISPENSE ∧
    table_lookup STATE_IDLE TRANSITION_WINE_LOW = some STATE_OUT_OF_WINE ∧
    table_lookup STATE_IDLE TRANSITION_WATER_LOW = some STATE_OUT_OF_WATER ∧
    table_lookup STATE_DISPENSE TRANSITION_DISPENSE_STOP = some STATE_IDLE ∧
    table_lookup STATE_DISPENSE TRANSITION_WINE_LOW = some STATE_OUT_OF_WINE ∧
    table_lookup STATE_DISPENSE TRANSITION_WATER_LOW = some STATE_OUT_OF_WATER ∧
    table_lookup STATE_OUT_OF_WINE TRANSITION_WINE_HI = some STATE_IDLE ∧
    table_lookup STATE_OUT_OF_WINE TRANSITION_WATER_LOW = some STATE_OUT_OF_WATER_AND_WINE ∧
    table_lookup STATE_OUT_OF_WATER TRANSITION_WATER_HI = some STATE_IDLE ∧
    table_lookup STATE_OUT_OF_WATER TRANSITION_WINE_LOW = some STATE_OUT_OF_WATER_AND_WINE ∧
    table_lookup STATE_OUT_OF_WATER_AND_WINE TRANSITION_WATER_HI = some STATE_OUT_OF_WINE ∧
    table_lookup STATE_OUT_OF_WATER_AND_WINE TRANSITION_WINE_HI = some STATE_OUT_OF_WATER ∧
    (all_pairs.filter (fun p => table_lookup p.1 p.2 == none)).length = 18 ∧
    (all_pairs.filter (fun p => table_lookup p.1 p.2 != none)).length = 12 ∧
    all_pairs.length = 30 := by
  refine ⟨by decide, by decide, by decide, table_lookup_iff, ?_⟩
  decide

/-- C5: from every configuration reached from power-up (any events fed) whose
state is OutOfWater, OutOfWine or OutOfWaterAndWine, the state after one more
iteration is not Dispensing, whatever the event; and the rules of the table
whose target is Dispensing are the single rule (Idle, DispenseStart). -/
theorem C5_no_dispense_from_out_of_stock (h : Hw) (es : List Nat) (t : Nat) :
    ((run_events (main_init h) es).state = STATE_OUT_OF_WATER ∨
      (run_events (main_init h) es).state = STATE_OUT_OF_WINE ∨
      (run_events (main_init h) es).state = STATE_OUT_OF_WATER_AND_WINE →
        (main_iter (run_events (main_init h) es) t).state ≠ STATE_DISPENSE) ∧
    transition_table.filter (fun r => r.new_state == STATE_DISPENSE) =
      [⟨STATE_IDLE, TRANSITION_DISPENSE_START, STATE_DISPENSE⟩] := by
  refine ⟨?_, by decide⟩
  intro hs
  have hinv := loopInv_run_events _ es (loopInv_main_init h)
  generalize run_events (main_init h) es = c at hs hinv
  have hcar : c.new_state = c.state := by
    rcases hinv.carried with h1 | ⟨h1, _⟩
    · exact h1
    · rcases hs with h2 | h2 | h2 <;> simp [h1] at h2
  have hst : (main_iter c t).state = scanned c t := by
    rw [main_iter_eq]; split <;> rfl
  rw [hst]
  cases hl : table_lookup c.state t with
  | none =>
    rw [scanned_none c t hl, hcar]
    rcases hs with h2 | h2 | h2 <;> simp [h2]
  | some ns =>
    rw [scanned_some c t ns hl]
    have hm := table_lookup_some _ _ _ hl
    simp only [transition_table, List.mem_cons, Transition.mk.injEq, List.mem_singleton,
      List.not_mem_nil, or_false] at hm
    rcases hm with h | h | h | h | h | h | h | h | h | h | h | h <;>
      obtain ⟨h1, _, h3⟩ := h <;> subst h3 <;> first | decide | (rcases hs with h2 | h2 | h2 <;> simp [h1] at h2)

theorem C5_no_dispense_from_out_of_stock_witness :
    (main_iter (run_events (main_init hw_reset) [TRANSITION_WINE_LOW])
      TRANSITION_DISPENSE_START).state ≠ STATE_DISPENSE :=
  (C5_no_dispense_from_out_of_stock hw_reset [TRANSITION_WINE_LOW]
    TRANSITION_DISPENSE_START).1 (by decide)

/-- C6, as stated, fails: in state OutOfWater (reached from power-up by
WaterLevelDroppedLow) the event DispenseStart has no rule, yet the iteration
that handles it calls `state_out_of_water` once more. -/
theorem C6_entry_action_rerun_counterexample :
    (run_events (main_init hw_reset) [TRANSITION_WATER_LOW]).state = STATE_OUT_OF_WATER ∧
    table_lookup STATE_OUT_OF_WATER TRANSITION_DISPENSE_START = none ∧
    (main_iter (run_events (main_init hw_reset) [TRANSITION_WATER_LOW])
        TRANSITION_DISPENSE_START).calls =
      (run_events (main_init hw_reset) [TRANSITION_WATER_LOW]).calls ++
        [EntryAction.state_out_of_water] := by
  decide

/-- C6 (amended): for an event with no rule for the current state, the
iteration calls the entry action that the kept value of `new_state` selects and
no other: none at the first iteration after power-up (where `new_state` is 0),
and in every configuration reached after at least one iteration exactly the
entry action of the current state, once (none if the state is not one of the
five). -/
theorem C6_unmatched_entry_calls (h : Hw) (es : List Nat) (t : Nat)
    (hno : table_lookup (run_events (main_init h) es).state t = none) :
    (main_iter (run_events (main_init h) es) t).calls =
      (run_events (main_init h) es).calls ++
        (if es = [] then [] else (entry_action_of (run_events (main_init h) es).state).toList) := by
  rw [main_iter_unmatched _ t hno]
  by_cases hes : es = []
  · subst hes; simp [run_events, main_init, entry_action_of]
  · rw [carried_after_iteration _ es hes, if_neg hes]
    cases entry_action_of (run_events (main_init h) es).state <;> simp

theorem C6_unmatched_entry_calls_witness :
    (main_iter (run_events (main_init hw_reset) [TRANSITION_WINE_LOW])
        TRANSITION_DISPENSE_START).calls =
      (run_events (main_init hw_reset) [TRANSITION_WINE_LOW]).calls ++
        [EntryAction.state_out_of_wine] :=
  C6_unmatched_entry_calls hw_reset [TRANSITION_WINE_LOW] TRANSITION_DISPENSE_START (by decide)

/-- C7: in every configuration reached from power-up (any events fed), an event
with no rule for the current state leaves the output side of the hardware as it
was: PORTA and PORTB (and PORTD and the direction registers) are unchanged. -/
theorem C7_unmatched_outputs_unchanged (h : Hw) (es : List Nat) (t : Nat)
    (hno : table_lookup (run_events (main_init h) es).state t = none) :
    (main_iter (run_events (main_init h) es) t).hw.porta =
        (run_events (main_init h) es).hw.porta ∧
    (main_iter (run_events (main_init h) es) t).hw.portb =
        (run_events (main_init h) es).hw.portb ∧
    (main_iter (run_events (main_init h) es) t).hw = (run_events (main_init h) es).hw := by
  have hinv := loopInv_run_events _ es (loopInv_main_init h)
  have key : (main_iter (run_events (main_init h) es) t).hw =
      (run_events (main_init h) es).hw := by
    rw [main_iter_unmatched _ t hno]
    cases ha : entry_action_of (run_events (main_init h) es).new_state with
    | none => rfl
    | some a => exact hinv.settled a ha
  exact ⟨by rw [key], by rw [key], key⟩

theorem C7_unmatched_outputs_unchanged_witness :
    (main_iter (run_events (main_init hw_reset) [TRANSITION_DISPENSE_START])
        TRANSITION_DISPENSE_START).hw.portb = 12 :=
  (C7_unmatched_outputs_unchanged hw_reset [TRANSITION_DISPENSE_START]
    TRANSITION_DISPENSE_START (by decide)).2.1

/-! ## The edge detector -/

theorem get_transition_pass_cases (d : Detector) (pina ev : Nat) (d' : Detector)
    (h : get_transition_pass d pina = some (ev, d')) :
    (is_water_low pina ≠ d.water_float ∧
      ev = (if lnot d.water_float ≠ 0 then TRANSITION_WATER_LOW else TRANSITION_WATER_HI) ∧
      d' = { d with water_float := lnot d.water_float }) ∨
    (is_water_low pina = d.water_float ∧ is_wine_low pina ≠ d.wine_float ∧
      ev = (if lnot d.wine_float ≠ 0 then TRANSITION_WINE_LOW else TRANSITION_WINE_HI) ∧
      d' = { d with wine_float := lnot d.wine_float }) ∨
    (is_water_low pina = d.water_float ∧ is_wine_low pina = d.wine_float ∧
      is_dispense pina ≠ d.dispense_switch ∧
      ev = (if lnot d.dispense_switch ≠ 0 then TRANSITION_DISPENSE_START
            else TRANSITION_DISPENSE_STOP) ∧
      d' = { d with dispense_switch := lnot d.dispense_switch }) := by
  unfold get_transition_pass at h
  by_cases h1 : is_water_low pina ≠ d.water_float
  · rw [if_pos h1] at h
    simp only [Option.some.injEq, Prod.mk.injEq] at h
    exact Or.inl ⟨h1, h.1.symm, h.2.symm⟩
  · rw [if_neg h1] at h
    have h1' : is_water_low pina = d.water_float := not_not.mp h1
    by_cases h2 : is_wine_low pina ≠ d.wine_float
    · rw [if_pos h2] at h
      simp only [Option.some.injEq, Prod.mk.injEq] at h
      exact Or.inr (Or.inl ⟨h1', h2, h.1.symm, h.2.symm⟩)
    · rw [if_neg h2] at h
      have h2' : is_wine_low pina = d.wine_float := not_not.mp h2
      by_cases h3 : is_dispense pina ≠ d.dispense_switch
      · rw [if_pos h3] at h
        simp only [Option.some.injEq, Prod.mk.injEq] at h
        exact Or.inr (Or.inr ⟨h1', h2', h3, h.1.symm, h.2.symm⟩)
      · rw [if_neg h3] at h
        exact absurd h (by simp)

theorem get_transition_some (d : Detector) (pins : List Nat) (r : Polled)
    (h : get_transition d pins = some r) :
    ∃ pina, pina ∈ pins ∧ get_transition_pass d pina = some (r.trans, r.det) ∧
      r.rest.length < pins.length := by
  induction pins generalizing r with
  | nil => simp [get_transition] at h
  | cons p ps ih =>
    unfold get_transition at h
    cases hp : get_transition_pass d p with
    | some x =>
      obtain ⟨ev, d'⟩ := x
      rw [hp] at h
      simp only [Option.some.injEq] at h
      subst h
      exact ⟨p, List.mem_cons_self _ _, hp, by simp⟩
    | none =>
      rw [hp] at h
      cases hr : get_transition d ps with
      | none => rw [hr] at h; simp at h
      | some r' =>
        rw [hr] at h
        simp only [Option.some.injEq] at h
        subst h
        obtain ⟨q, hq, hqp, hlen⟩ := ih r' hr
        exact ⟨q, List.mem_cons_of_mem _ hq, hqp, by simp; omega⟩

/-- C8, as stated, fails: with the water-low reading already true at the first
poll after power-up (and nothing else asserted) the first call of
`get_transition` returns WaterLevelDroppedLow at that very poll; likewise
WineLevelDroppedLow for the wine-low reading. -/
theorem C8_low_at_boot_counterexample :
    is_water_low 5 = 1 ∧
    get_transition Detector.boot [5] = some ⟨TRANSITION_WATER_LOW, ⟨1, 0, 0⟩, [], 0⟩ ∧
    is_wine_low 3 = 1 ∧
    get_transition Detector.boot [3] = some ⟨TRANSITION_WINE_LOW, ⟨0, 1, 0⟩, [], 0⟩ := by
  decide

/-- C8 (amended): the recorded flags start at 0, not at the live reading.  If
the water-low reading is true at the first poll after power-up, `get_transition`
returns WaterLevelDroppedLow at that poll; if the wine-low reading is true there
and the water-low reading is not, it returns WineLevelDroppedLow at that poll;
and if both are true at the first two polls, the first two calls return
WaterLevelDroppedLow and then WineLevelDroppedLow. -/
theorem C8_low_at_boot_is_reported (pina : Nat) (rest : List Nat) :
    (is_water_low pina = 1 →
      get_transition Detector.boot (pina :: rest) =
        some ⟨TRANSITION_WATER_LOW, ⟨1, 0, 0⟩, rest, 0⟩) ∧
    (is_water_low pina = 0 → is_wine_low pina = 1 →
      get_transition Detector.boot (pina :: rest) =
        some ⟨TRANSITION_WINE_LOW, ⟨0, 1, 0⟩, rest, 0⟩) ∧
    (∀ q, is_water_low pina = 1 → is_water_low q = 1 → is_wine_low q = 1 →
      emitted 2 Detector.boot (pina :: q :: rest) =
        [TRANSITION_WATER_LOW, TRANSITION_WINE_LOW]) := by
  refine ⟨?_, ?_, ?_⟩
  · intro h1
    simp [get_transition, get_transition_pass, Detector.boot, h1, lnot]
  · intro h1 h2
    simp [get_transition, get_transition_pass, Detector.boot, h1, h2, lnot]
  · intro q h1 h2 h3
    simp [emitted, get_transition, get_transition_pass, Detector.boot, h1, h2, h3, lnot]

theorem C8_low_at_boot_is_reported_witness :
    get_transition Detector.boot (1 :: [7]) =
        some ⟨TRANSITION_WATER_LOW, ⟨1, 0, 0⟩, [7], 0⟩ ∧
    get_transition Detector.boot (3 :: [7]) =
        some ⟨TRANSITION_WINE_LOW, ⟨0, 1, 0⟩, [7], 0⟩ ∧
    emitted 2 Detector.boot (1 :: 1 :: [7]) = [TRANSITION_WATER_LOW, TRANSITION_WINE_LOW] :=
  ⟨(C8_low_at_boot_is_reported 1 [7]).1 (by decide),
   (C8_low_at_boot_is_reported 3 [7]).2.1 (by decide) (by decide),
   (C8_low_at_boot_is_reported 1 [7]).2.2 1 (by decide) (by decide) (by decide)⟩

/-- C9: for every value of the recorded flags and every snapshot in which at
least one flag (in particular more than one) differs from its recorded value,
`get_transition` returns at that snapshot; the event is the water-level event
of the flipped water flag if the water flag differs, otherwise the wine-level
event if the wine flag differs, otherwise the dispense event; and the recorded
values of the two other flags are unchanged. -/
theorem C9_priority_tie_break (d : Detector) (pina : Nat) (rest : List Nat)
    (hdiff : 1 ≤ differing d pina) :
    ∃ r, get_transition d (pina :: rest) = some r ∧ r.rest = rest ∧
      (is_water_low pina ≠ d.water_float →
        r.trans = (if d.water_float = 0 then TRANSITION_WATER_LOW else TRANSITION_WATER_HI) ∧
        r.det.wine_float = d.wine_float ∧ r.det.dispense_switch = d.dispense_switch) ∧
      (is_water_low pina = d.water_float → is_wine_low pina ≠ d.wine_float →
        r.trans = (if d.wine_float = 0 then TRANSITION_WINE_LOW else TRANSITION_WINE_HI) ∧
        r.det.water_float = d.water_float ∧ r.det.dispense_switch = d.dispense_switch) ∧
      (is_water_low pina = d.water_float → is_wine_low pina = d.wine_float →
        r.trans = (if d.dispense_switch = 0 then TRANSITION_DISPENSE_START
                   else TRANSITION_DISPENSE_STOP) ∧
        r.det.water_float = d.water_float ∧ r.det.wine_float = d.wine_float) := by
  by_cases h1 : is_water_low pina ≠ d.water_float
  · have hg : get_transition d (pina :: rest) =
        some ⟨if lnot d.water_float ≠ 0 then TRANSITION_WATER_LOW else TRANSITION_WATER_HI,
          { d with water_float := lnot d.water_float }, rest, 0⟩ := by
      simp only [get_transition, get_transition_pass, if_pos h1]
    refine ⟨_, hg, rfl, ?_, ?_, ?_⟩
    · intro _
      refine ⟨?_, rfl, rfl⟩
      by_cases h0 : d.water_float = 0 <;> simp [lnot, h0]
    · intro h; exact absurd h h1
    · intro h; exact absurd h h1
  · have h1' : is_water_low pina = d.water_float := not_not.mp h1
    by_cases h2 : is_wine_low pina ≠ d.wine_float
    · have hg : get_transition d (pina :: rest) =
          some ⟨if lnot d.wine_float ≠ 0 then TRANSITION_WINE_LOW else TRANSITION_WINE_HI,
            { d with wine_float := lnot d.wine_float }, rest, 0⟩ := by
        simp only [get_transition, get_transition_pass, if_neg h1, if_pos h2]
      refine ⟨_, hg, rfl, ?_, ?_, ?_⟩
      · intro h; exact absurd h1' h
      · intro _ _
        refine ⟨?_, rfl, rfl⟩
        by_cases h0 : d.wine_float = 0 <;> simp [lnot, h0]
      · intro _ h; exact absurd h h2
    · have h2' : is_wine_low pina = d.wine_float := not_not.mp h2
      have h3 : is_dispense pina ≠ d.dispense_switch := by
        intro h3
        simp [differing, h1', h2', h3] at hdiff
      have hg : get_transition d (pina :: rest) =
          some ⟨if lnot d.dispense_switch ≠ 0 then TRANSITION_DISPENSE_START
                else TRANSITION_DISPENSE_STOP,
            { d with dispense_switch := lnot d.dispense_switch }, rest, 0⟩ := by
        simp only [get_transition, get_transition_pass, if_neg h1, if_neg h2, if_pos h3]
      refine ⟨_, hg, rfl, ?_, ?_, ?_⟩
      · intro h; exact absurd h1' h
      · intro _ h; exact absurd h2' h
      · intro _ _
        refine ⟨?_, rfl, rfl⟩
        by_cases h0 : d.dispense_switch = 0 <;> simp [lnot, h0]

theorem C9_priority_tie_break_witness :
    2 ≤ differing Detector.boot 0 ∧
    ∃ r, get_transition Detector.boot [0] = some r ∧ r.trans = TRANSITION_WATER_LOW ∧
      r.det.wine_float = 0 ∧ r.det.dispense_switch = 0 := by
  obtain ⟨r, hr, _, hw, _, _⟩ := C9_priority_tie_break Detector.boot 0 [] (by decide)
  exact ⟨by decide, r, hr, hw (by decide)⟩

theorem water_events_alternate (n : Nat) (d : Detector) (pins : List Nat) :
    alternates (if d.water_float = 0 then TRANSITION_WATER_LOW else TRANSITION_WATER_HI)
      (if d.water_float = 0 then TRANSITION_WATER_HI else TRANSITION_WATER_LOW)
      (water_events (emitted n d pins)) = true := by
  induction n generalizing d pins with
  | zero => simp [emitted, water_events, alternates]
  | succ n ih =>
    unfold emitted
    cases hg : get_transition d pins with
    | none => simp [water_events, alternates]
    | some r =>
      simp only
      obtain ⟨pina, _, hp, _⟩ := get_transition_some d pins r hg
      have ih' := ih r.det r.rest
      rcases get_transition_pass_cases d pina r.trans r.det hp with
        ⟨_, he, hd⟩ | ⟨_, _, he, hd⟩ | ⟨_, _, _, he, hd⟩
      · rw [hd] at ih'
        by_cases h0 : d.water_float = 0
        · simp [he, hd, h0, lnot, water_events, alternates] at ih' ⊢
          exact ih'
        · simp [he, hd, h0, lnot, water_events, alternates] at ih' ⊢
          exact ih'
      · rw [hd] at ih'
        have hf : water_events (r.trans :: emitted n r.det r.rest) =
            water_events (emitted n r.det r.rest) := by
          rw [he]; unfold water_events
          split <;> simp
        rw [hf, hd]; exact ih'
      · rw [hd] at ih'
        have hf : water_events (r.trans :: emitted n r.det r.rest) =
            water_events (emitted n r.det r.rest) := by
          rw [he]; unfold water_events
          split <;> simp
        rw [hf, hd]; exact ih'

theorem wine_events_alternate (n : Nat) (d : Detector) (pins : List Nat) :
    alternates (if d.wine_float = 0 then TRANSITION_WINE_LOW else TRANSITION_WINE_HI)
      (if d.wine_float = 0 then TRANSITION_WINE_HI else TRANSITION_WINE_LOW)
      (wine_events (emitted n d pins)) = true := by
  induction n generalizing d pins with
  | zero => simp [emitted, wine_events, alternates]
  | succ n ih =>
    unfold emitted
    cases hg : get_transition d pins with
    | none => simp [wine_events, alternates]
    | some r =>
      simp only
      obtain ⟨pina, _, hp, _⟩ := get_transition_some d pins r hg
      have ih' := ih r.det r.rest
      rcases get_transition_pass_cases d pina r.trans r.det hp with
        ⟨_, he, hd⟩ | ⟨_, _, he, hd⟩ | ⟨_, _, _, he, hd⟩
      · rw [hd] at ih'
        have hf : wine_events (r.trans :: emitted n r.det r.rest) =
            wine_events (emitted n r.det r.rest) := by
          rw [he]; unfold wine_events
          split <;> simp
        rw [hf, hd]; exact ih'
      · rw [hd] at ih'
        by_cases h0 : d.wine_float = 0
        · simp [he, hd, h0, lnot, wine_events, alternates] at ih' ⊢
          exact ih'
        · simp [he, hd, h0, lnot, wine_events, alternates] at ih' ⊢
          exact ih'
      · rw [hd] at ih'
        have hf : wine_events (r.trans :: emitted n r.det r.rest) =
            wine_events (emitted n r.det r.rest) := by
          rw [he]; unfold wine_events
          split <;> simp
        rw [hf, hd]; exact ih'

theorem dispense_events_alternate (n : Nat) (d : Detector) (pins : List Nat) :
    alternates
      (if d.dispense_switch = 0 then TRANSITION_DISPENSE_START else TRANSITION_DISPENSE_STOP)
      (if d.dispense_switch = 0 then TRANSITION_DISPENSE_STOP else TRANSITION_DISPENSE_START)
      (dispense_events (emitted n d pins)) = true := by
  induction n generalizing d pins with
  | zero => simp [emitted, dispense_events, alternates]
  | succ n ih =>
    unfold emitted
    cases hg : get_transition d pins with
    | none => simp [dispense_events, alternates]
    | some r =>
      simp only
      obtain ⟨pina, _, hp, _⟩ := get_transition_some d pins r hg
      have ih' := ih r.det r.rest
      rcases get_transition_pass_cases d pina r.trans r.det hp with
        ⟨_, he, hd⟩ | ⟨_, _, he, hd⟩ | ⟨_, _, _, he, hd⟩
      · rw [hd] at ih'
        have hf : dispense_events (r.trans :: emitted n r.det r.rest) =
            dispense_events (emitted n r.det r.rest) := by
          rw [he]; unfold dispense_events
          split <;> simp
        rw [hf, hd]; exact ih'
      · rw [hd] at ih'
        have hf : dispense_events (r.trans :: emitted n r.det r.rest) =
            dispense_events (emitted n r.det r.rest) := by
          rw [he]; unfold dispense_events
          split <;> simp
        rw [hf, hd]; exact ih'
      · rw [hd] at ih'
        by_cases h0 : d.dispense_switch = 0
        · simp [he, hd, h0, lnot, dispense_events, alternates] at ih' ⊢
          exact ih'
        · simp [he, hd, h0, lnot, dispense_events, alternates] at ih' ⊢
          exact ih'

/-- C10: for every sequence of sensor snapshots and every number of successive
calls of `get_transition` from power-up, the emitted events that concern one
flag alternate between its two polarities and begin with the asserted one:
WaterLevelDroppedLow / WaterLevelRecovered, WineLevelDroppedLow /
WineLevelRecovered, DispenseStart / DispenseStop. -/
theorem C10_events_alternate (n : Nat) (pins : List Nat) :
    alternates TRANSITION_WATER_LOW TRANSITION_WATER_HI
      (water_events (emitted n Detector.boot pins)) = true ∧
    alternates TRANSITION_WINE_LOW TRANSITION_WINE_HI
      (wine_events (emitted n Detector.boot pins)) = true ∧
    alternates TRANSITION_DISPENSE_START TRANSITION_DISPENSE_STOP
      (dispense_events (emitted n Detector.boot pins)) = true :=
  ⟨water_events_alternate n Detector.boot pins, wine_events_alternate n Detector.boot pins,
   dispense_events_alternate n Detector.boot pins⟩

theorem main_iter_state (c : Config) (e : Nat) : (main_iter c e).state = scanned c e := by
  rw [main_iter_eq]; split <;> rfl

theorem main_iter_new_state (c : Config) (e : Nat) :
    (main_iter c e).new_state = scanned c e := by
  rw [main_iter_eq]; split <;> rfl

theorem main_iter_det (c : Config) (e : Nat) : (main_iter c e).det = c.det := by
  rw [main_iter_eq]; split <;> rfl

theorem coherent_step (c : Config) (pina : Nat) (ev : Nat) (d' : Detector) (hw : Hw)
    (hc : Coherent c) (hp : get_transition_pass c.det pina = some (ev, d')) :
    Coherent (main_iter { c with det := d', hw := hw } ev) := by
  constructor
  right
  rw [main_iter_state, main_iter_new_state, main_iter_det]
  refine ⟨rfl, ?_⟩
  have ht := hc.tracks
  have hcases := get_transition_pass_cases _ pina ev d' hp
  clear hc hp
  obtain ⟨st, ns, h0, ⟨wf, nf, ds⟩, calls⟩ := c
  simp only [Detector.boot, Detector.mk.injEq] at ht
  simp only at hcases
  by_cases hds : ds = 0 <;>
  rcases ht with ⟨h1, h2, h3, h4, h5⟩ | ⟨h1, ⟨h2 | h2, h3, h4⟩ | ⟨h2, h3, h4⟩ | ⟨h2, h3, h4⟩ |
      ⟨h2, h3, h4⟩⟩ <;>
    rcases hcases with ⟨_, he, hd⟩ | ⟨_, _, he, hd⟩ | ⟨_, _, _, he, hd⟩ <;>
    subst hd <;> subst he <;> simp only at * <;> subst_vars <;>
    simp_all [scanned, table_lookup, scan_table, transition_table, lnot]

theorem coherent_main_init (h : Hw) : Coherent (main_init h) :=
  ⟨Or.inl ⟨rfl, rfl, rfl⟩⟩

theorem coherent_main_loop (n : Nat) (c : Config) (pins : List Nat) (hc : Coherent c) :
    Coherent (main_loop n c pins) := by
  induction n generalizing c pins with
  | zero => exact hc
  | succ n ih =>
    unfold main_loop
    cases hg : get_transition c.det pins with
    | none => exact hc
    | some r =>
      simp only
      obtain ⟨pina, _, hp, _⟩ := get_transition_some c.det pins r hg
      exact ih _ _ (coherent_step c pina r.trans r.det _ hc hp)

/-- C1: in the composed system (control loop fed by `get_transition` over any
sequence of sensor snapshots, from power-up), every configuration at the head of
the loop has the state that goes with the recorded fluid flags: Dispensing only
when water-low and wine-low are both recorded false; OutOfWater iff water-low
is recorded true and wine-low false; OutOfWine iff wine-low is recorded true and
water-low false; OutOfWaterAndWine iff both are recorded true; and when both are
recorded false the state is Idle or Dispensing. -/
theorem C1_state_coherent_with_flags (h : Hw) (n : Nat) (pins : List Nat) :
    ((main_loop n (main_init h) pins).state = STATE_DISPENSE →
      (main_loop n (main_init h) pins).det.water_float = 0 ∧
      (main_loop n (main_init h) pins).det.wine_float = 0) ∧
    ((main_loop n (main_init h) pins).state = STATE_OUT_OF_WATER ↔
      (main_loop n (main_init h) pins).det.water_float ≠ 0 ∧
      (main_loop n (main_init h) pins).det.wine_float = 0) ∧
    ((main_loop n (main_init h) pins).state = STATE_OUT_OF_WINE ↔
      (main_loop n (main_init h) pins).det.wine_float ≠ 0 ∧
      (main_loop n (main_init h) pins).det.water_float = 0) ∧
    ((main_loop n (main_init h) pins).state = STATE_OUT_OF_WATER_AND_WINE ↔
      (main_loop n (main_init h) pins).det.water_float ≠ 0 ∧
      (main_loop n (main_init h) pins).det.wine_float ≠ 0) ∧
    ((main_loop n (main_init h) pins).det.water_float = 0 ∧
      (main_loop n (main_init h) pins).det.wine_float = 0 →
      (main_loop n (main_init h) pins).state = STATE_IDLE ∨
      (main_loop n (main_init h) pins).state = STATE_DISPENSE) := by
  have hc := (coherent_main_loop n (main_init h) pins (coherent_main_init h)).tracks
  generalize main_loop n (main_init h) pins = c at hc
  obtain ⟨st, ns, h0, ⟨wf, nf, ds⟩, calls⟩ := c
  simp only [Detector.boot, Detector.mk.injEq] at hc
  simp only
  rcases hc with ⟨h1, h2, h3, h4, h5⟩ | ⟨h1, ⟨h2 | h2, h3, h4⟩ | ⟨h2, h3, h4⟩ | ⟨h2, h3, h4⟩ |
      ⟨h2, h3, h4⟩⟩ <;> subst_vars <;> simp

theorem C1_state_coherent_with_flags_witness :
    (main_loop 2 (main_init hw_reset) [6, 4, 7]).state = STATE_OUT_OF_WATER ∧
    (main_loop 2 (main_init hw_reset) [6, 4, 7]).det.water_float ≠ 0 ∧
    (main_loop 2 (main_init hw_reset) [6, 4, 7]).det.wine_float = 0 :=
  ⟨by decide, (C1_state_coherent_with_flags hw_reset 2 [6, 4, 7]).2.1.mp (by decide)⟩

/-! ## Bit-level claims: readers, primitives, entry actions -/

theorem sbi_lt (a b : Nat) : sbi a b < 256 := by
  unfold sbi; exact Nat.mod_lt _ (by decide)

theorem cbi_lt (a b : Nat) : cbi a b < 256 := by
  unfold cbi; exact Nat.mod_lt _ (by decide)

theorem sbi_idem (a b : Nat) : sbi (sbi a b) b = sbi a b := by
  apply Nat.eq_of_testBit_eq; intro i
  simp only [testBit_sbi]
  cases a.testBit i <;> cases decide (i < 8) <;> cases decide (b = i) <;> rfl

theorem cbi_idem (a b : Nat) : cbi (cbi a b) b = cbi a b := by
  apply Nat.eq_of_testBit_eq; intro i
  simp only [testBit_cbi]
  cases a.testBit i <;> cases decide (i < 8) <;> cases decide (b = i) <;> rfl

theorem and_bit_eq_zero_iff (p b : Nat) : p &&& (1 <<< b) = 0 ↔ p.testBit b = false := by
  constructor
  · intro h
    have h1 : (p &&& (1 <<< b)).testBit b = false := by rw [h]; exact Nat.zero_testBit b
    rw [Nat.testBit_and, Nat.testBit_shiftLeft, testBit_one_shift] at h1
    simpa using h1
  · intro h
    apply Nat.eq_of_testBit_eq; intro i
    rw [Nat.testBit_and, Nat.testBit_shiftLeft, testBit_one_shift, Nat.zero_testBit]
    by_cases hb : b = i
    · subst hb; simp [h]
    · simp [hb]

theorem lnot_eq_one_iff (x : Nat) : lnot x = 1 ↔ x = 0 := by
  unfold lnot; split <;> simp_all

/-- C13: for every value of the input register PINA, `is_dispense` returns 1
iff bit 0 is 0, `is_water_low` returns 1 iff bit 1 is 0, `is_wine_low` returns 1
iff bit 2 is 0; each result is 0 or 1, and two register values that agree on
the bit a reader tests give the same result. -/
theorem C13_readers_active_low (pina : Nat) :
    (is_dispense pina = 1 ↔ pina.testBit 0 = false) ∧
    (is_water_low pina = 1 ↔ pina.testBit 1 = false) ∧
    (is_wine_low pina = 1 ↔ pina.testBit 2 = false) ∧
    (is_dispense pina = 0 ∨ is_dispense pina = 1) ∧
    (is_water_low pina = 0 ∨ is_water_low pina = 1) ∧
    (is_wine_low pina = 0 ∨ is_wine_low pina = 1) ∧
    (∀ q : Nat, q.testBit 0 = pina.testBit 0 → is_dispense q = is_dispense pina) ∧
    (∀ q : Nat, q.testBit 1 = pina.testBit 1 → is_water_low q = is_water_low pina) ∧
    (∀ q : Nat, q.testBit 2 = pina.testBit 2 → is_wine_low q = is_wine_low pina) := by
  have key : ∀ (p q b : Nat), q.testBit b = p.testBit b →
      lnot (q &&& (1 <<< b)) = lnot (p &&& (1 <<< b)) := by
    intro p q b hpq
    have h1 := and_bit_eq_zero_iff p b
    have h2 := and_bit_eq_zero_iff q b
    unfold lnot
    by_cases hp : p.testBit b = false
    · rw [if_pos (h1.mpr hp), if_pos (h2.mpr (hpq ▸ hp))]
    · rw [if_neg (fun hc => hp (h1.mp hc)), if_neg (fun hc => hp (hpq ▸ h2.mp hc))]
  refine ⟨?_, ?_, ?_, lnot_le_one _, lnot_le_one _, lnot_le_one _, ?_, ?_, ?_⟩
  · unfold is_dispense; rw [lnot_eq_one_iff]; exact and_bit_eq_zero_iff pina 0
  · unfold is_water_low; rw [lnot_eq_one_iff]; exact and_bit_eq_zero_iff pina 1
  · unfold is_wine_low; rw [lnot_eq_one_iff]; exact and_bit_eq_zero_iff pina 2
  · intro q hq; exact key pina q 0 hq
  · intro q hq; exact key pina q 1 hq
  · intro q hq; exact key pina q 2 hq

theorem C13_readers_active_low_witness :
    is_water_low 0xF5 = is_water_low 5 :=
  (C13_readers_active_low 5).2.2.2.2.2.2.2.1 0xF5 (by decide)

theorem writes_porta_sbi (b : Nat) (hb : b < 8) :
    writes_porta_bit (fun h => { h with porta := sbi h.porta b }) b true := by
  intro h
  refine ⟨by simp [testBit_sbi, hb], ?_, sbi_lt _ _, rfl, rfl, rfl, rfl, rfl, rfl, ?_⟩
  · intro i hi hne
    simp [testBit_sbi, hi, Ne.symm hne]
  · simp only [sbi_idem]

theorem writes_porta_cbi (b : Nat) :
    writes_porta_bit (fun h => { h with porta := cbi h.porta b }) b false := by
  intro h
  refine ⟨by simp [testBit_cbi], ?_, cbi_lt _ _, rfl, rfl, rfl, rfl, rfl, rfl, ?_⟩
  · intro i hi hne
    simp [testBit_cbi, hi, Ne.symm hne]
  · simp only [cbi_idem]

theorem writes_portb_sbi (b : Nat) (hb : b < 8) :
    writes_portb_bit (fun h => { h with portb := sbi h.portb b }) b true := by
  intro h
  refine ⟨by simp [testBit_sbi, hb], ?_, sbi_lt _ _, rfl, rfl, rfl, rfl, rfl, rfl, ?_⟩
  · intro i hi hne
    simp [testBit_sbi, hi, Ne.symm hne]
  · simp only [sbi_idem]

theorem writes_portb_cbi (b : Nat) :
    writes_portb_bit (fun h => { h with portb := cbi h.portb b }) b false := by
  intro h
  refine ⟨by simp [testBit_cbi], ?_, cbi_lt _ _, rfl, rfl, rfl, rfl, rfl, rfl, ?_⟩
  · intro i hi hne
    simp [testBit_cbi, hi, Ne.symm hne]
  · simp only [cbi_idem]

/-- C14: each of the ten actuator primitives writes exactly one output line:
`water_on`/`water_off` set/clear PORTB bit 2, `wine_on`/`wine_off` PORTB bit 3,
`power_led_on`/`off` PORTA bit 7, `wine_led_on`/`off` PORTA bit 6,
`water_led_on`/`off` PORTA bit 5; the other seven bits of that register and every
other register are unchanged, and applying a primitive twice gives the same
registers as applying it once. -/
theorem C14_primitives_write_one_line :
    writes_portb_bit water_on 2 true ∧ writes_portb_bit water_off 2 false ∧
    writes_portb_bit wine_on 3 true ∧ writes_portb_bit wine_off 3 false ∧
    writes_porta_bit power_led_on 7 true ∧ writes_porta_bit power_led_off 7 false ∧
    writes_porta_bit wine_led_on 6 true ∧ writes_porta_bit wine_led_off 6 false ∧
    writes_porta_bit water_led_on 5 true ∧ writes_porta_bit water_led_off 5 false :=
  ⟨writes_portb_sbi 2 (by decide), writes_portb_cbi 2,
   writes_portb_sbi 3 (by decide), writes_portb_cbi 3,
   writes_porta_sbi 7 (by decide), writes_porta_cbi 7,
   writes_porta_sbi 6 (by decide), writes_porta_cbi 6,
   writes_porta_sbi 5 (by decide), writes_porta_cbi 5⟩

theorem C14_primitives_write_one_line_witness :
    (water_on ⟨0, 0xF0, 0, 0, 0, 0, 0⟩).portb.testBit 2 = true ∧
    (water_on ⟨0, 0xF0, 0, 0, 0, 0, 0⟩).portb.testBit 7 = Nat.testBit 0xF0 7 :=
  ⟨(C14_primitives_write_one_line.1 ⟨0, 0xF0, 0, 0, 0, 0, 0⟩).1,
   (C14_primitives_write_one_line.1 ⟨0, 0xF0, 0, 0, 0, 0, 0⟩).2.1 7 (by decide) (by decide)⟩
/-- C11: for arbitrary prior register values each entry action sets exactly its
listed outputs and leaves every other bit of PORTA and PORTB unchanged:
`state_idle` gives water off, wine off, power LED on, wine-low LED off, water-low
LED off; `state_dispense` gives water on, wine on and leaves PORTA as it was;
`state_out_of_wine` gives water off, wine off, wine-low LED on, water-low LED
off; `state_out_of_water` gives water off, wine off, water-low LED on, wine-low
LED off; `state_out_of_water_and_wine` gives wine-low LED on, water-low LED on
and leaves PORTB as it was. -/
theorem C11_entry_actions_outputs (h : Hw) :
    (water_is_on (state_idle h) = false ∧ wine_is_on (state_idle h) = false ∧
      power_led_is_on (state_idle h) = true ∧ wine_led_is_on (state_idle h) = false ∧
      water_led_is_on (state_idle h) = false ∧
      (∀ i, i < 8 → i ≠ 2 → i ≠ 3 →
        (state_idle h).portb.testBit i = h.portb.testBit i) ∧
      (∀ i, i < 8 → i ≠ 5 → i ≠ 6 → i ≠ 7 →
        (state_idle h).porta.testBit i = h.porta.testBit i)) ∧
    (water_is_on (state_dispense h) = true ∧ wine_is_on (state_dispense h) = true ∧
      (state_dispense h).porta = h.porta ∧
      (∀ i, i < 8 → i ≠ 2 → i ≠ 3 →
        (state_dispense h).portb.testBit i = h.portb.testBit i)) ∧
    (water_is_on (state_out_of_wine h) = false ∧ wine_is_on (state_out_of_wine h) = false ∧
      wine_led_is_on (state_out_of_wine h) = true ∧
      water_led_is_on (state_out_of_wine h) = false ∧
      (∀ i, i < 8 → i ≠ 2 → i ≠ 3 →
        (state_out_of_wine h).portb.testBit i = h.portb.testBit i) ∧
      (∀ i, i < 8 → i ≠ 5 → i ≠ 6 →
        (state_out_of_wine h).porta.testBit i = h.porta.testBit i)) ∧
    (water_is_on (state_out_of_water h) = false ∧
      wine_is_on (state_out_of_water h) = false ∧
      water_led_is_on (state_out_of_water h) = true ∧
      wine_led_is_on (state_out_of_water h) = false ∧
      (∀ i, i < 8 → i ≠ 2 → i ≠ 3 →
        (state_out_of_water h).portb.testBit i = h.portb.testBit i) ∧
      (∀ i, i < 8 → i ≠ 5 → i ≠ 6 →
        (state_out_of_water h).porta.testBit i = h.porta.testBit i)) ∧
    (wine_led_is_on (state_out_of_water_and_wine h) = true ∧
      water_led_is_on (state_out_of_water_and_wine h) = true ∧
      (state_out_of_water_and_wine h).portb = h.portb ∧
      (∀ i, i < 8 → i ≠ 5 → i ≠ 6 →
        (state_out_of_water_and_wine h).porta.testBit i = h.porta.testBit i)) := by
  refine ⟨⟨?_, ?_, ?_, ?_, ?_, ?_, ?_⟩, ⟨?_, ?_, rfl, ?_⟩, ⟨?_, ?_, ?_, ?_, ?_, ?_⟩,
    ⟨?_, ?_, ?_, ?_, ?_, ?_⟩, ⟨?_, ?_, rfl, ?_⟩⟩ <;>
  first
  | (simp [water_is_on, wine_is_on, power_led_is_on, wine_led_is_on, water_led_is_on,
      state_idle, state_dispense, state_out_of_wine, state_out_of_water,
      state_out_of_water_and_wine, water_on, water_off, wine_on, wine_off, power_led_on,
      wine_led_on, wine_led_off, water_led_on, water_led_off, testBit_sbi, testBit_cbi]; done)
  | (intro i hi h1 h2 h3
     simp [state_idle, state_dispense, state_out_of_wine, state_out_of_water,
      state_out_of_water_and_wine, water_on, water_off, wine_on, wine_off, power_led_on,
      wine_led_on, wine_led_off, water_led_on, water_led_off, testBit_sbi, testBit_cbi,
      hi, Ne.symm h1, Ne.symm h2, Ne.symm h3])
  | (intro i hi h1 h2
     simp [state_idle, state_dispense, state_out_of_wine, state_out_of_water,
      state_out_of_water_and_wine, water_on, water_off, wine_on, wine_off, power_led_on,
      wine_led_on, wine_led_off, water_led_on, water_led_off, testBit_sbi, testBit_cbi,
      hi, Ne.symm h1, Ne.symm h2])

theorem C11_entry_actions_outputs_witness :
    (state_idle ⟨0x1F, 0xFF, 0, 0, 0, 0, 0⟩).portb.testBit 7 = Nat.testBit 0xFF 7 ∧
    (state_idle ⟨0x1F, 0xFF, 0, 0, 0, 0, 0⟩).porta.testBit 4 = Nat.testBit 0x1F 4 :=
  ⟨(C11_entry_actions_outputs ⟨0x1F, 0xFF, 0, 0, 0, 0, 0⟩).1.2.2.2.2.2.1 7
      (by decide) (by decide) (by decide),
   (C11_entry_actions_outputs ⟨0x1F, 0xFF, 0, 0, 0, 0, 0⟩).1.2.2.2.2.2.2 4
      (by decide) (by decide) (by decide) (by decide)⟩

/-! ## Indicators -/

theorem leds_state_idle (h : Hw) :
    power_led_is_on (state_idle h) = true ∧ wine_led_is_on (state_idle h) = false ∧
      water_led_is_on (state_idle h) = false := by
  simp [power_led_is_on, wine_led_is_on, water_led_is_on, state_idle, water_off, wine_off,
    power_led_on, wine_led_off, water_led_off, testBit_sbi, testBit_cbi]

theorem leds_state_dispense (h : Hw) :
    power_led_is_on (state_dispense h) = power_led_is_on h ∧
      wine_led_is_on (state_dispense h) = wine_led_is_on h ∧
      water_led_is_on (state_dispense h) = water_led_is_on h := by
  simp [power_led_is_on, wine_led_is_on, water_led_is_on, state_dispense, water_on, wine_on]

theorem leds_state_out_of_wine (h : Hw) :
    power_led_is_on (state_out_of_wine h) = power_led_is_on h ∧
      wine_led_is_on (state_out_of_wine h) = true ∧
      water_led_is_on (state_out_of_wine h) = false := by
  simp [power_led_is_on, wine_led_is_on, water_led_is_on, state_out_of_wine, water_off,
    wine_off, wine_led_on, water_led_off, testBit_sbi, testBit_cbi]

theorem leds_state_out_of_water (h : Hw) :
    power_led_is_on (state_out_of_water h) = power_led_is_on h ∧
      wine_led_is_on (state_out_of_water h) = false ∧
      water_led_is_on (state_out_of_water h) = true := by
  simp [power_led_is_on, wine_led_is_on, water_led_is_on, state_out_of_water, water_off,
    wine_off, wine_led_off, water_led_on, testBit_sbi, testBit_cbi]

theorem leds_state_out_of_water_and_wine (h : Hw) :
    power_led_is_on (state_out_of_water_and_wine h) = power_led_is_on h ∧
      wine_led_is_on (state_out_of_water_and_wine h) = true ∧
      water_led_is_on (state_out_of_water_and_wine h) = true := by
  simp [power_led_is_on, wine_led_is_on, water_led_is_on, state_out_of_water_and_wine,
    wine_led_on, water_led_on, testBit_sbi, testBit_cbi]

theorem ledInv_main_init (h : Hw) : LedInv (main_init h) := by
  have := leds_state_idle (flash_led 3 (pin_setup h))
  refine ⟨?_, ?_, ?_⟩ <;> simp [main_init, this]

theorem ledInv_main_iter (c : Config) (e : Nat) (hc : LoopInv c) (hl : LedInv c) :
    LedInv (main_iter c e) := by
  rw [main_iter_eq]
  cases hlk : table_lookup c.state e with
  | none =>
    rw [scanned_none c e hlk]
    have hst : c.new_state = c.state ∨ (c.state = STATE_IDLE ∧ c.new_state = 0) := hc.carried
    have hw1 := hl.wine_led
    have hw2 := hl.water_led
    have hw3 := hl.power_led
    cases ha : entry_action_of c.new_state with
    | none =>
      simp only
      rcases hst with h1 | ⟨h1, h2⟩
      · rw [h1]; exact ⟨hw1, hw2, hw3⟩
      · rw [h2]; rw [h1] at hw1 hw2
        refine ⟨?_, ?_, hw3⟩
        · simpa using hw1
        · simpa using hw2
    | some a =>
      simp only
      rw [hc.settled a ha]
      rcases hst with h1 | ⟨h1, h2⟩
      · rw [h1]; exact ⟨hw1, hw2, hw3⟩
      · simp [h2, entry_action_of] at ha
  | some ns =>
    rw [scanned_some c e ns hlk]
    have hm := table_lookup_some _ _ _ hlk
    simp only [transition_table, List.mem_cons, Transition.mk.injEq, List.mem_singleton,
      List.not_mem_nil, or_false] at hm
    have hw1 := hl.wine_led
    have hw2 := hl.water_led
    have hw3 := hl.power_led
    rcases hm with h | h | h | h | h | h | h | h | h | h | h | h <;>
      obtain ⟨h1, h2, h3⟩ := h <;> subst h3 <;>
      simp only [entry_action_of, STATE_IDLE, STATE_DISPENSE, STATE_OUT_OF_WATER,
        STATE_OUT_OF_WINE, STATE_OUT_OF_WATER_AND_WINE] <;>
      simp [h1] at hw1 hw2 <;>
      refine ⟨?_, ?_, ?_⟩ <;>
      simp [EntryAction.apply, leds_state_idle, leds_state_dispense, leds_state_out_of_wine,
        leds_state_out_of_water, leds_state_out_of_water_and_wine, hw1, hw2, hw3]

theorem ledInv_run_events (c : Config) (es : List Nat) (hc : LoopInv c) (hl : LedInv c) :
    LedInv (run_events c es) := by
  induction es generalizing c with
  | nil => exact hl
  | cons e es ih =>
    exact ih (main_iter c e) (loopInv_main_iter c e hc) (ledInv_main_iter c e hc hl)
/-- C12: in every configuration reached from power-up by feeding the control
loop any sequence of events, the wine-low LED (PORTA bit 6) is on iff the state
is OutOfWine or OutOfWaterAndWine, the water-low LED (PORTA bit 5) is on iff the
state is OutOfWater or OutOfWaterAndWine, and the power LED (PORTA bit 7) is on;
both low indicators are on iff the state is OutOfWaterAndWine, and after
WaterLevelRecovered in OutOfWaterAndWine the state is OutOfWine with the
wine-low LED on and the water-low LED off. -/
theorem C12_indicators_report_state (h : Hw) (es : List Nat) :
    (wine_led_is_on (run_events (main_init h) es).hw = true ↔
      ((run_events (main_init h) es).state = STATE_OUT_OF_WINE ∨
        (run_events (main_init h) es).state = STATE_OUT_OF_WATER_AND_WINE)) ∧
    (water_led_is_on (run_events (main_init h) es).hw = true ↔
      ((run_events (main_init h) es).state = STATE_OUT_OF_WATER ∨
        (run_events (main_init h) es).state = STATE_OUT_OF_WATER_AND_WINE)) ∧
    power_led_is_on (run_events (main_init h) es).hw = true ∧
    ((wine_led_is_on (run_events (main_init h) es).hw = true ∧
        water_led_is_on (run_events (main_init h) es).hw = true) ↔
      (run_events (main_init h) es).state = STATE_OUT_OF_WATER_AND_WINE) ∧
    ((run_events (main_init h) es).state = STATE_OUT_OF_WATER_AND_WINE →
      (main_iter (run_events (main_init h) es) TRANSITION_WATER_HI).state =
        STATE_OUT_OF_WINE ∧
      wine_led_is_on (main_iter (run_events (main_init h) es) TRANSITION_WATER_HI).hw = true ∧
      water_led_is_on (main_iter (run_events (main_init h) es) TRANSITION_WATER_HI).hw =
        false) := by
  have hloop := loopInv_run_events _ es (loopInv_main_init h)
  have hled := ledInv_run_events _ es (loopInv_main_init h) (ledInv_main_init h)
  have hnext := ledInv_main_iter _ TRANSITION_WATER_HI hloop hled
  generalize run_events (main_init h) es = c at hloop hled hnext
  refine ⟨hled.wine_led, hled.water_led, hled.power_led, ?_, ?_⟩
  · rw [hled.wine_led, hled.water_led]
    constructor
    · rintro ⟨h1 | h1, h2 | h2⟩ <;> simp_all
    · intro h1; simp [h1]
  · intro hs
    have hst : (main_iter c TRANSITION_WATER_HI).state = STATE_OUT_OF_WINE := by
      rw [main_iter_state, scanned_some c _ STATE_OUT_OF_WINE (by rw [hs]; rfl)]
    refine ⟨hst, ?_, ?_⟩
    · rw [hnext.wine_led, hst]; simp
    · have := hnext.water_led
      rw [hst] at this
      simpa using this

theorem C12_indicators_report_state_witness :
    (main_iter (run_events (main_init hw_reset) [TRANSITION_WATER_LOW, TRANSITION_WINE_LOW])
        TRANSITION_WATER_HI).state = STATE_OUT_OF_WINE ∧
    wine_led_is_on (main_iter
      (run_events (main_init hw_reset) [TRANSITION_WATER_LOW, TRANSITION_WINE_LOW])
        TRANSITION_WATER_HI).hw = true ∧
    water_led_is_on (main_iter
      (run_events (main_init hw_reset) [TRANSITION_WATER_LOW, TRANSITION_WINE_LOW])
        TRANSITION_WATER_HI).hw = false :=
  (C12_indicators_report_state hw_reset
    [TRANSITION_WATER_LOW, TRANSITION_WINE_LOW]).2.2.2.2 (by decide)
/-! ## Startup blink -/

theorem delay_loop_ten (h : Hw) : delay_loop 256 0 h = ten_delays h := by
  simp [delay_loop, delay_ms_10, ten_delays]

theorem flash_led_body_eq (h : Hw) :
    flash_led_body h = ten_delays (flash_off_phase (ten_delays (flash_on_phase h))) := by
  simp only [flash_led_body, delay_loop_ten, flash_on_phase, flash_off_phase]

theorem flash_led_loop_eq (num : Nat) (hnum : num ≤ 255) (fuel j : Nat) (h : Hw)
    (hfuel : num - j ≤ fuel) :
    flash_led_loop num fuel j h = flash_led_body^[num - j] h := by
  induction fuel generalizing j h with
  | zero =>
    have : num - j = 0 := by omega
    rw [this]; rfl
  | succ fuel ih =>
    unfold flash_led_loop
    by_cases hj : j < num
    · rw [if_pos hj]
      have hmod : (j + 1) % 256 = j + 1 := Nat.mod_eq_of_lt (by omega)
      rw [hmod, ih (j + 1) (flash_led_body h) (by omega)]
      have : num - j = (num - (j + 1)) + 1 := by omega
      rw [this, Function.iterate_succ_apply]
    · rw [if_neg hj]
      have : num - j = 0 := by omega
      rw [this]; rfl

theorem delays_iterate_body (n : Nat) (h : Hw) :
    (flash_led_body^[n] h).delays = h.delays + 20 * n := by
  induction n generalizing h with
  | zero => rfl
  | succ n ih =>
    rw [Function.iterate_succ_apply, ih, flash_led_body_eq]
    simp only [ten_delays, flash_off_phase, flash_on_phase, power_led_on, power_led_off,
      water_led_on, water_led_off, wine_led_on, wine_led_off]
    omega

/-- C15: for every `num` in 0..255 the loop of `flash_led(num)` leaves by its
own condition after exactly `num` blink cycles (whatever fuel of at least `num`
steps it is given), having made 20 calls of `_delay_ms(10)` per cycle; a cycle
is: the three indicators on and PORTD bit 7 cleared, ten 10 ms delays, the three
indicators off and PORTD bit 7 set, ten 10 ms delays; and `main`, which runs
`flash_led(3)` and then `state_idle`, enters its control loop in state Idle with
water off, wine off, power LED on, wine-low LED off and water-low LED off, for
any register values at reset. -/
theorem C15_startup_blink (h : Hw) :
    (∀ num, num ≤ 255 →
      flash_led num h = flash_led_body^[num] h ∧
      (∀ fuel, num ≤ fuel → flash_led_loop num fuel 0 h = flash_led_body^[num] h) ∧
      (flash_led num h).delays = h.delays + 20 * num) ∧
    flash_led_body h = ten_delays (flash_off_phase (ten_delays (flash_on_phase h))) ∧
    (power_led_is_on (flash_on_phase h) = true ∧ wine_led_is_on (flash_on_phase h) = true ∧
      water_led_is_on (flash_on_phase h) = true ∧
      (flash_on_phase h).portd.testBit 7 = false ∧
      (flash_on_phase h).portb = h.portb ∧ (flash_on_phase h).delays = h.delays) ∧
    (power_led_is_on (flash_off_phase h) = false ∧
      wine_led_is_on (flash_off_phase h) = false ∧
      water_led_is_on (flash_off_phase h) = false ∧
      (flash_off_phase h).portd.testBit 7 = true ∧
      (flash_off_phase h).portb = h.portb ∧ (flash_off_phase h).delays = h.delays) ∧
    ((ten_delays h).delays = h.delays + 10 ∧ (ten_delays h).porta = h.porta ∧
      (ten_delays h).portb = h.portb ∧ (ten_delays h).portd = h.portd) ∧
    (main_init h).hw = state_idle (flash_led 3 (pin_setup h)) ∧
    (main_init h).state = STATE_IDLE ∧
    water_is_on (main_init h).hw = false ∧ wine_is_on (main_init h).hw = false ∧
    power_led_is_on (main_init h).hw = true ∧ wine_led_is_on (main_init h).hw = false ∧
    water_led_is_on (main_init h).hw = false := by
  refine ⟨?_, flash_led_body_eq h, ?_, ?_, ⟨rfl, rfl, rfl, rfl⟩, rfl, rfl,
    (pumps_state_idle _).1, (pumps_state_idle _).2, (leds_state_idle _).1,
    (leds_state_idle _).2.1, (leds_state_idle _).2.2⟩
  · intro num hnum
    have h1 : flash_led num h = flash_led_body^[num] h := by
      unfold flash_led
      exact flash_led_loop_eq num hnum 256 0 h (by omega)
    refine ⟨h1, ?_, ?_⟩
    · intro fuel hf
      exact flash_led_loop_eq num hnum fuel 0 h (by omega)
    · rw [h1, delays_iterate_body]
  · simp [power_led_is_on, wine_led_is_on, water_led_is_on, flash_on_phase, power_led_on,
      wine_led_on, water_led_on, testBit_sbi, testBit_cbi]
  · simp [power_led_is_on, wine_led_is_on, water_led_is_on, flash_off_phase, power_led_off,
      wine_led_off, water_led_off, testBit_sbi, testBit_cbi]

theorem C15_startup_blink_witness :
    flash_led 3 hw_reset = flash_led_body^[3] hw_reset ∧
    (flash_led 3 hw_reset).delays = 60 :=
  ⟨((C15_startup_blink hw_reset).1 3 (by decide)).1,
   ((C15_startup_blink hw_reset).1 3 (by decide)).2.2⟩

/-! ## Returns of the edge detector -/

theorem get_transition_pass_none_iff (d : Detector) (pina : Nat) :
    get_transition_pass d pina = none ↔ differing d pina = 0 := by
  unfold get_transition_pass differing
  by_cases h1 : is_water_low pina ≠ d.water_float
  · simp [h1]
  · by_cases h2 : is_wine_low pina ≠ d.wine_float
    · simp [h1, h2]
    · by_cases h3 : is_dispense pina ≠ d.dispense_switch
      · simp [h1, h2, h3]
      · simp [h1, h2, h3]

theorem get_transition_decompose (d : Detector) (pins : List Nat) (r : Polled)
    (h : get_transition d pins = some r) :
    ∃ pre pina, pins = pre ++ pina :: r.rest ∧ pre.length = r.delays ∧
      (∀ p ∈ pre, get_transition_pass d p = none) ∧
      get_transition_pass d pina = some (r.trans, r.det) := by
  induction pins generalizing r with
  | nil => simp [get_transition] at h
  | cons p ps ih =>
    unfold get_transition at h
    cases hp : get_transition_pass d p with
    | some x =>
      obtain ⟨ev, d'⟩ := x
      rw [hp] at h
      simp only [Option.some.injEq] at h
      subst h
      exact ⟨[], p, rfl, rfl, by simp, hp⟩
    | none =>
      rw [hp] at h
      cases hr : get_transition d ps with
      | none => rw [hr] at h; simp at h
      | some r' =>
        rw [hr] at h
        simp only [Option.some.injEq] at h
        subst h
        obtain ⟨pre, q, hps, hlen, hpre, hq⟩ := ih r' hr
        refine ⟨p :: pre, q, by simp [hps], by simp [hlen], ?_, hq⟩
        intro x hx
        rcases List.mem_cons.mp hx with hx | hx
        · rw [hx]; exact hp
        · exact hpre x hx

theorem get_transition_append (d : Detector) (pre : List Nat) (pina : Nat) (rest : List Nat)
    (ev : Nat) (d' : Detector) (hpre : ∀ p ∈ pre, get_transition_pass d p = none)
    (hp : get_transition_pass d pina = some (ev, d')) :
    get_transition d (pre ++ pina :: rest) = some ⟨ev, d', rest, pre.length⟩ := by
  induction pre with
  | nil => simp [get_transition, hp]
  | cons p ps ih =>
    have h1 : get_transition_pass d p = none := hpre p (List.mem_cons_self _ _)
    have h2 := ih (fun x hx => hpre x (List.mem_cons_of_mem _ hx))
    simp [get_transition, h1, h2]

theorem get_transition_none_of_all (d : Detector) (pins : List Nat)
    (h : ∀ p ∈ pins, get_transition_pass d p = none) : get_transition d pins = none := by
  induction pins with
  | nil => rfl
  | cons p ps ih =>
    have h1 : get_transition_pass d p = none := h p (List.mem_cons_self _ _)
    have h2 := ih (fun x hx => h x (List.mem_cons_of_mem _ hx))
    simp [get_transition, h1, h2]

theorem get_transition_all_of_none (d : Detector) (pins : List Nat)
    (h : get_transition d pins = none) : ∀ p ∈ pins, get_transition_pass d p = none := by
  induction pins with
  | nil => intro p hp; simp at hp
  | cons a as ih =>
    unfold get_transition at h
    cases ha : get_transition_pass d a with
    | some y => rw [ha] at h; simp at h
    | none =>
      rw [ha] at h
      cases has : get_transition d as with
      | some y => rw [has] at h; simp at h
      | none =>
        intro p hp
        rcases List.mem_cons.mp hp with hpa | hpa
        · rw [hpa]; exact ha
        · exact ih has p hpa

/-- C17: over a sequence of sensor snapshots, `get_transition` returns at the
first snapshot in which at least one flag differs from its recorded value,
having made exactly one `_delay_ms(10)` call for each earlier snapshot (in all
of which no flag differs) and with the recorded flags still at their values of
entry when that snapshot is examined; every return is of this form; and the
call returns whenever some snapshot of the sequence has a differing flag, and
only then. -/
theorem C17_returns_at_first_change (d : Detector) :
    (∀ pre pina rest, (∀ p ∈ pre, differing d p = 0) → 1 ≤ differing d pina →
      ∃ r, get_transition d (pre ++ pina :: rest) = some r ∧ r.rest = rest ∧
        r.delays = pre.length ∧ get_transition_pass d pina = some (r.trans, r.det)) ∧
    (∀ pins r, get_transition d pins = some r →
      ∃ pre pina, pins = pre ++ pina :: r.rest ∧ (∀ p ∈ pre, differing d p = 0) ∧
        1 ≤ differing d pina ∧ r.delays = pre.length ∧
        get_transition_pass d pina = some (r.trans, r.det)) ∧
    (∀ pins, (∃ p ∈ pins, 1 ≤ differing d p) ↔ (get_transition d pins).isSome = true) := by
  refine ⟨?_, ?_, ?_⟩
  · intro pre pina rest hpre hp
    have hpre' : ∀ p ∈ pre, get_transition_pass d p = none :=
      fun p hm => (get_transition_pass_none_iff d p).mpr (hpre p hm)
    cases hpass : get_transition_pass d pina with
    | none =>
      have := (get_transition_pass_none_iff d pina).mp hpass
      omega
    | some x =>
      obtain ⟨ev, d'⟩ := x
      exact ⟨_, get_transition_append d pre pina rest ev d' hpre' hpass, rfl, rfl, rfl⟩
  · intro pins r hr
    obtain ⟨pre, pina, hpins, hlen, hpre, hp⟩ := get_transition_decompose d pins r hr
    refine ⟨pre, pina, hpins, ?_, ?_, hlen.symm, hp⟩
    · intro p hm; exact (get_transition_pass_none_iff d p).mp (hpre p hm)
    · have hne : differing d pina ≠ 0 := by
        intro h0
        rw [(get_transition_pass_none_iff d pina).mpr h0] at hp
        simp at hp
      omega
  · intro pins
    constructor
    · rintro ⟨p, hm, hp⟩
      cases hg : get_transition d pins with
      | some r => rfl
      | none =>
        have := (get_transition_pass_none_iff d p).mp (get_transition_all_of_none d pins hg p hm)
        omega
    · intro hsome
      cases hg : get_transition d pins with
      | none => rw [hg] at hsome; simp at hsome
      | some r =>
        obtain ⟨pre, pina, hpins, _, _, hp⟩ := get_transition_decompose d pins r hg
        refine ⟨pina, by rw [hpins]; simp, ?_⟩
        have hne : differing d pina ≠ 0 := by
          intro h0
          rw [(get_transition_pass_none_iff d pina).mpr h0] at hp
          simp at hp
        omega

theorem C17_returns_at_first_change_witness :
    ∃ r, get_transition Detector.boot ([7, 7] ++ 5 :: [7]) = some r ∧ r.rest = [7] ∧
      r.delays = 2 ∧ get_transition_pass Detector.boot 5 = some (r.trans, r.det) :=
  (C17_returns_at_first_change Detector.boot).1 [7, 7] 5 [7] (by decide) (by decide)
theorem flags_boolean_pass (d : Detector) (pina ev : Nat) (d' : Detector)
    (hd : flags_boolean d) (hp : get_transition_pass d pina = some (ev, d')) :
    flags_boolean d' := by
  obtain ⟨h1, h2, h3⟩ := hd
  rcases get_transition_pass_cases d pina ev d' hp with
    ⟨_, _, hd'⟩ | ⟨_, _, _, hd'⟩ | ⟨_, _, _, _, hd'⟩ <;> subst hd'
  · exact ⟨lnot_le_one _, h2, h3⟩
  · exact ⟨h1, lnot_le_one _, h3⟩
  · exact ⟨h1, h2, lnot_le_one _⟩

theorem flags_boolean_polled_after (n : Nat) (d : Detector) (pins : List Nat)
    (hd : flags_boolean d) : flags_boolean (polled_after n d pins).1 := by
  induction n generalizing d pins with
  | zero => exact hd
  | succ n ih =>
    unfold polled_after
    cases hg : get_transition d pins with
    | none => exact hd
    | some r =>
      simp only
      obtain ⟨pina, _, hp, _⟩ := get_transition_some d pins r hg
      exact ih r.det r.rest (flags_boolean_pass d pina r.trans r.det hd hp)

theorem lnot_eq_of_ne (x y : Nat) (hx : x = 0 ∨ x = 1) (hy : y = 0 ∨ y = 1) (hne : y ≠ x) :
    lnot x = y ∧ lnot x ≠ x := by
  rcases hx with hx | hx <;> rcases hy with hy | hy <;> subst hx <;> subst hy <;>
    simp_all [lnot]

/-- C16: every return of `get_transition` in a run from power-up changes exactly
one recorded flag.  With `d` the statics before the call (after any number of
earlier calls) and `pina` the snapshot at which the call returns: one flag is
flipped, its new value is the live reading of that flag in `pina`, the event is
the asserted one (WaterLevelDroppedLow, WineLevelDroppedLow, DispenseStart)
when the new value is 1 and the released one (WaterLevelRecovered,
WineLevelRecovered, DispenseStop) when it is 0, and the two other recorded
flags are unchanged. -/
theorem C16_return_flips_one_flag (n : Nat) (pins : List Nat) (r : Polled)
    (hr : get_transition (polled_after n Detector.boot pins).1
      (polled_after n Detector.boot pins).2 = some r) :
    ∃ pre pina, (polled_after n Detector.boot pins).2 = pre ++ pina :: r.rest ∧
      pre.length = r.delays ∧
      ((r.det.water_float ≠ (polled_after n Detector.boot pins).1.water_float ∧
          r.det.water_float = lnot (polled_after n Detector.boot pins).1.water_float ∧
          r.det.water_float = is_water_low pina ∧
          ((r.det.water_float = 1 ∧ r.trans = TRANSITION_WATER_LOW) ∨
            (r.det.water_float = 0 ∧ r.trans = TRANSITION_WATER_HI)) ∧
          r.det.wine_float = (polled_after n Detector.boot pins).1.wine_float ∧
          r.det.dispense_switch = (polled_after n Detector.boot pins).1.dispense_switch) ∨
       (r.det.wine_float ≠ (polled_after n Detector.boot pins).1.wine_float ∧
          r.det.wine_float = lnot (polled_after n Detector.boot pins).1.wine_float ∧
          r.det.wine_float = is_wine_low pina ∧
          ((r.det.wine_float = 1 ∧ r.trans = TRANSITION_WINE_LOW) ∨
            (r.det.wine_float = 0 ∧ r.trans = TRANSITION_WINE_HI)) ∧
          r.det.water_float = (polled_after n Detector.boot pins).1.water_float ∧
          r.det.dispense_switch = (polled_after n Detector.boot pins).1.dispense_switch) ∨
       (r.det.dispense_switch ≠ (polled_after n Detector.boot pins).1.dispense_switch ∧
          r.det.dispense_switch =
            lnot (polled_after n Detector.boot pins).1.dispense_switch ∧
          r.det.dispense_switch = is_dispense pina ∧
          ((r.det.dispense_switch = 1 ∧ r.trans = TRANSITION_DISPENSE_START) ∨
            (r.det.dispense_switch = 0 ∧ r.trans = TRANSITION_DISPENSE_STOP)) ∧
          r.det.water_float = (polled_after n Detector.boot pins).1.water_float ∧
          r.det.wine_float = (polled_after n Detector.boot pins).1.wine_float)) := by
  have hb : flags_boolean (polled_after n Detector.boot pins).1 :=
    flags_boolean_polled_after n _ pins ⟨Or.inl rfl, Or.inl rfl, Or.inl rfl⟩
  generalize (polled_after n Detector.boot pins).1 = d at hr hb
  generalize (polled_after n Detector.boot pins).2 = ps at hr
  obtain ⟨pre, pina, hps, hlen, _, hp⟩ := get_transition_decompose d ps r hr
  refine ⟨pre, pina, hps, hlen, ?_⟩
  obtain ⟨h1, h2, h3⟩ := hb
  rcases get_transition_pass_cases d pina r.trans r.det hp with
    ⟨hne, he, hd'⟩ | ⟨_, hne, he, hd'⟩ | ⟨_, _, hne, he, hd'⟩
  · left
    have hl := lnot_eq_of_ne d.water_float (is_water_low pina) h1 (lnot_le_one _) hne
    rw [hd'] at *
    refine ⟨hl.2, rfl, hl.1, ?_, rfl, rfl⟩
    rcases lnot_le_one d.water_float with h0 | h0
    · right; exact ⟨h0, by rw [he]; simp [h0]⟩
    · left; exact ⟨h0, by rw [he]; simp [h0]⟩
  · right; left
    have hl := lnot_eq_of_ne d.wine_float (is_wine_low pina) h2 (lnot_le_one _) hne
    rw [hd'] at *
    refine ⟨hl.2, rfl, hl.1, ?_, rfl, rfl⟩
    rcases lnot_le_one d.wine_float with h0 | h0
    · right; exact ⟨h0, by rw [he]; simp [h0]⟩
    · left; exact ⟨h0, by rw [he]; simp [h0]⟩
  · right; right
    have hl := lnot_eq_of_ne d.dispense_switch (is_dispense pina) h3 (lnot_le_one _) hne
    rw [hd'] at *
    refine ⟨hl.2, rfl, hl.1, ?_, rfl, rfl⟩
    rcases lnot_le_one d.dispense_switch with h0 | h0
    · right; exact ⟨h0, by rw [he]; simp [h0]⟩
    · left; exact ⟨h0, by rw [he]; simp [h0]⟩
theorem C16_return_flips_one_flag_witness :
    ∃ pre pina, [7, 7] = pre ++ pina :: [7] ∧ pre.length = 0 ∧ 0 = is_water_low pina := by
  obtain ⟨pre, pina, h1, h2, h3⟩ :=
    C16_return_flips_one_flag 1 [5, 7, 7] ⟨TRANSITION_WATER_HI, ⟨0, 0, 0⟩, [7], 0⟩ (by decide)
  refine ⟨pre, pina, h1, h2, ?_⟩
  rcases h3 with ⟨_, _, h, _⟩ | ⟨h, _⟩ | ⟨h, _⟩
  · exact h
  · exact absurd rfl h
  · exact absurd rfl h

/-! ## The composed system: which events find a rule -/

theorem coherent_machine_state (c : Config) (hc : Coherent c) :
    is_machine_state c.state = true := by
  rcases hc.tracks with ⟨h1, _⟩ | ⟨_, ⟨h2 | h2, _⟩ | ⟨h2, _⟩ | ⟨h2, _⟩ | ⟨h2, _⟩⟩ <;>
    rw [‹c.state = _›] <;> rfl

theorem coherent_event_matches (c : Config) (pina ev : Nat) (d' : Detector)
    (hc : Coherent c) (hp : get_transition_pass c.det pina = some (ev, d')) :
    (ev = TRANSITION_DISPENSE_START ∨ ev = TRANSITION_DISPENSE_STOP) ∨
      table_lookup c.state ev ≠ none := by
  have ht := hc.tracks
  have hcases := get_transition_pass_cases _ pina ev d' hp
  clear hc hp
  obtain ⟨st, ns, h0, ⟨wf, nf, ds⟩, calls⟩ := c
  simp only [Detector.boot, Detector.mk.injEq] at ht
  simp only at hcases
  by_cases hds : ds = 0 <;>
  rcases ht with ⟨h1, h2, h3, h4, h5⟩ | ⟨h1, ⟨h2 | h2, h3, h4⟩ | ⟨h2, h3, h4⟩ | ⟨h2, h3, h4⟩ |
      ⟨h2, h3, h4⟩⟩ <;>
    rcases hcases with ⟨_, he, hd⟩ | ⟨_, _, he, hd⟩ | ⟨_, _, _, he, hd⟩ <;>
    subst hd <;> subst he <;> simp only at * <;> subst_vars <;>
    simp_all [table_lookup, scan_table, transition_table, lnot]

/-- C18: in the composed system (control loop fed only by `get_transition`, from
power-up), in every configuration at the head of the loop the current state is
one of the five machine states, and whatever snapshots follow, the event of the
next return of `get_transition` finds a rule for the current state unless it is
DispenseStart or DispenseStop: every water-level and wine-level event matches a
rule; in particular the first event after power-up matches a rule from Idle. -/
theorem C18_level_events_always_match (h : Hw) (n : Nat) (pins : List Nat) :
    is_machine_state (main_loop n (main_init h) pins).state = true ∧
    (main_loop n (main_init h) pins).state ≠ 0 ∧
    (∀ pins' r, get_transition (main_loop n (main_init h) pins).det pins' = some r →
      (table_lookup (main_loop n (main_init h) pins).state r.trans = none →
        r.trans = TRANSITION_DISPENSE_START ∨ r.trans = TRANSITION_DISPENSE_STOP) ∧
      (r.trans = TRANSITION_WATER_LOW ∨ r.trans = TRANSITION_WATER_HI ∨
        r.trans = TRANSITION_WINE_LOW ∨ r.trans = TRANSITION_WINE_HI →
        table_lookup (main_loop n (main_init h) pins).state r.trans ≠ none)) ∧
    (∀ pins' r, get_transition Detector.boot pins' = some r →
      table_lookup STATE_IDLE r.trans ≠ none) := by
  have hc := coherent_main_loop n (main_init h) pins (coherent_main_init h)
  have hm := coherent_machine_state _ hc
  refine ⟨hm, ?_, ?_, ?_⟩
  · intro h0; rw [h0] at hm; exact absurd hm (by decide)
  · intro pins' r hr
    obtain ⟨pina, _, hp, _⟩ := get_transition_some _ pins' r hr
    have hmatch := coherent_event_matches _ pina r.trans r.det hc hp
    constructor
    · intro hnone
      rcases hmatch with hm1 | hm1
      · exact hm1
      · exact absurd hnone hm1
    · intro hev
      rcases hmatch with hm1 | hm1
      · rcases hm1 with hm1 | hm1 <;> rw [hm1] at hev <;> simp at hev
      · exact hm1
  · intro pins' r hr
    obtain ⟨pina, _, hp, _⟩ := get_transition_some _ pins' r hr
    rcases get_transition_pass_cases _ pina r.trans r.det hp with
      ⟨_, he, _⟩ | ⟨_, _, he, _⟩ | ⟨_, _, _, he, _⟩ <;>
      rw [he] <;> decide

theorem C18_level_events_always_match_witness :
    (TRANSITION_DISPENSE_START = TRANSITION_DISPENSE_START ∨
      TRANSITION_DISPENSE_START = TRANSITION_DISPENSE_STOP) ∧
    table_lookup STATE_IDLE TRANSITION_WATER_LOW ≠ none :=
  ⟨((C18_level_events_always_match hw_reset 1 [5]).2.2.1 [4]
      ⟨TRANSITION_DISPENSE_START, ⟨1, 0, 1⟩, [], 0⟩ (by decide)).1 (by decide),
   (C18_level_events_always_match hw_reset 0 []).2.2.2 [5]
      ⟨TRANSITION_WATER_LOW, ⟨1, 0, 0⟩, [], 0⟩ (by decide)⟩
/-! ## The composed system: a held dispense button -/

theorem main_iter_not_dispense (c : Config) (e : Nat) (hcar : c.new_state = c.state)
    (hs : c.state ≠ STATE_DISPENSE) (he : e ≠ TRANSITION_DISPENSE_START) :
    (main_iter c e).state ≠ STATE_DISPENSE := by
  rw [main_iter_state]
  cases hl : table_lookup c.state e with
  | none => rw [scanned_none c e hl, hcar]; exact hs
  | some ns =>
    rw [scanned_some c e ns hl]
    have hm := table_lookup_some _ _ _ hl
    simp only [transition_table, List.mem_cons, Transition.mk.injEq, List.mem_singleton,
      List.not_mem_nil, or_false] at hm
    rcases hm with h | h | h | h | h | h | h | h | h | h | h | h <;>
      obtain ⟨_, h2, h3⟩ := h <;> subst h3 <;> first | decide | exact absurd h2 he

theorem dispense_events_cons_level (e : Nat) (es : List Nat)
    (he : e = TRANSITION_WATER_LOW ∨ e = TRANSITION_WATER_HI ∨ e = TRANSITION_WINE_LOW ∨
      e = TRANSITION_WINE_HI) :
    dispense_events (e :: es) = dispense_events es := by
  rcases he with h | h | h | h <;> subst h <;> rfl

theorem level_event_water (x : Nat) :
    (if x ≠ 0 then TRANSITION_WATER_LOW else TRANSITION_WATER_HI) = TRANSITION_WATER_LOW ∨
    (if x ≠ 0 then TRANSITION_WATER_LOW else TRANSITION_WATER_HI) = TRANSITION_WATER_HI ∨
    (if x ≠ 0 then TRANSITION_WATER_LOW else TRANSITION_WATER_HI) = TRANSITION_WINE_LOW ∨
    (if x ≠ 0 then TRANSITION_WATER_LOW else TRANSITION_WATER_HI) = TRANSITION_WINE_HI := by
  split <;> simp

theorem level_event_wine (x : Nat) :
    (if x ≠ 0 then TRANSITION_WINE_LOW else TRANSITION_WINE_HI) = TRANSITION_WATER_LOW ∨
    (if x ≠ 0 then TRANSITION_WINE_LOW else TRANSITION_WINE_HI) = TRANSITION_WATER_HI ∨
    (if x ≠ 0 then TRANSITION_WINE_LOW else TRANSITION_WINE_HI) = TRANSITION_WINE_LOW ∨
    (if x ≠ 0 then TRANSITION_WINE_LOW else TRANSITION_WINE_HI) = TRANSITION_WINE_HI := by
  split <;> simp

theorem level_event_ne_start (e : Nat)
    (he : e = TRANSITION_WATER_LOW ∨ e = TRANSITION_WATER_HI ∨ e = TRANSITION_WINE_LOW ∨
      e = TRANSITION_WINE_HI) : e ≠ TRANSITION_DISPENSE_START := by
  rcases he with h | h | h | h <;> subst h <;> decide

theorem main_loop_succ (k : Nat) (c : Config) (pins : List Nat) (r : Polled)
    (hg : get_transition c.det pins = some r) :
    ∃ c', main_loop (k + 1) c pins = main_loop k c' r.rest ∧ c'.det = r.det ∧
      c'.new_state = c'.state ∧
      (c.new_state = c.state → c.state ≠ STATE_DISPENSE →
        r.trans ≠ TRANSITION_DISPENSE_START → c'.state ≠ STATE_DISPENSE) := by
  refine ⟨main_iter { c with det := r.det, hw := { c.hw with delays := c.hw.delays + r.delays } }
    r.trans, ?_, ?_, ?_, ?_⟩
  · simp only [main_loop, hg]
  · rw [main_iter_det]
  · rw [main_iter_state, main_iter_new_state]
  · intro hcar hs he
    exact main_iter_not_dispense _ _ hcar hs he

theorem dispensing_after_release (k : Nat) (c : Config) (pins : List Nat)
    (hcar : c.new_state = c.state) (hs : c.state ≠ STATE_DISPENSE)
    (hds : c.det.dispense_switch = 0)
    (hend : (main_loop k c pins).state = STATE_DISPENSE) :
    (dispense_events (emitted k c.det pins)).take 1 = [TRANSITION_DISPENSE_START] := by
  induction k generalizing c pins with
  | zero => exact absurd hend hs
  | succ k ih =>
    cases hg : get_transition c.det pins with
    | none =>
      unfold main_loop at hend
      rw [hg] at hend; exact absurd hend hs
    | some r =>
      obtain ⟨c', hml, hdet, hcar', hstep⟩ := main_loop_succ k c pins r hg
      rw [hml] at hend
      unfold emitted
      rw [hg]
      simp only
      obtain ⟨pina, _, hp, _⟩ := get_transition_some c.det pins r hg
      have hnext := ih c' r.rest hcar'
      rw [hdet] at hnext
      rcases get_transition_pass_cases c.det pina r.trans r.det hp with
        ⟨_, he, hd⟩ | ⟨_, _, he, hd⟩ | ⟨_, _, _, he, hd⟩
      · have hlev := level_event_water (lnot c.det.water_float)
        rw [← he] at hlev
        rw [dispense_events_cons_level _ _ hlev]
        exact hnext (hstep hcar hs (level_event_ne_start _ hlev)) (by rw [hd]; exact hds) hend
      · have hlev := level_event_wine (lnot c.det.wine_float)
        rw [← he] at hlev
        rw [dispense_events_cons_level _ _ hlev]
        exact hnext (hstep hcar hs (level_event_ne_start _ hlev)) (by rw [hd]; exact hds) hend
      · have hev : r.trans = TRANSITION_DISPENSE_START := by
          rw [he, hds]; rfl
        rw [hev]; rfl

theorem dispensing_after_held (k : Nat) (c : Config) (pins : List Nat)
    (hcar : c.new_state = c.state) (hs : c.state ≠ STATE_DISPENSE)
    (hds : c.det.dispense_switch ≠ 0)
    (hend : (main_loop k c pins).state = STATE_DISPENSE) :
    (dispense_events (emitted k c.det pins)).take 2 =
      [TRANSITION_DISPENSE_STOP, TRANSITION_DISPENSE_START] := by
  induction k generalizing c pins with
  | zero => exact absurd hend hs
  | succ k ih =>
    cases hg : get_transition c.det pins with
    | none =>
      unfold main_loop at hend
      rw [hg] at hend; exact absurd hend hs
    | some r =>
      obtain ⟨c', hml, hdet, hcar', hstep⟩ := main_loop_succ k c pins r hg
      rw [hml] at hend
      unfold emitted
      rw [hg]
      simp only
      obtain ⟨pina, _, hp, _⟩ := get_transition_some c.det pins r hg
      have hnext := ih c' r.rest hcar'
      have hrel := dispensing_after_release k c' r.rest hcar'
      rw [hdet] at hnext hrel
      rcases get_transition_pass_cases c.det pina r.trans r.det hp with
        ⟨_, he, hd⟩ | ⟨_, _, he, hd⟩ | ⟨_, _, _, he, hd⟩
      · have hlev := level_event_water (lnot c.det.water_float)
        rw [← he] at hlev
        rw [dispense_events_cons_level _ _ hlev]
        exact hnext (hstep hcar hs (level_event_ne_start _ hlev)) (by rw [hd]; exact hds) hend
      · have hlev := level_event_wine (lnot c.det.wine_float)
        rw [← he] at hlev
        rw [dispense_events_cons_level _ _ hlev]
        exact hnext (hstep hcar hs (level_event_ne_start _ hlev)) (by rw [hd]; exact hds) hend
      · have hl0 : lnot c.det.dispense_switch = 0 := by simp [lnot, hds]
        have hev : r.trans = TRANSITION_DISPENSE_STOP := by
          rw [he, hl0]; rfl
        have h1 := hrel (hstep hcar hs (by rw [hev]; decide)) (by rw [hd]; exact hl0) hend
        rw [hev]
        show (TRANSITION_DISPENSE_STOP :: dispense_events (emitted k r.det r.rest)).take 2 = _
        rw [List.take_succ_cons, h1]
/-- C19: with the snapshots "dispense pressed, water drops low, water recovers"
and the button held throughout (PINA = 6, 4, 6) the composed system emits
DispenseStart, WaterLevelDroppedLow, WaterLevelRecovered and reaches state Idle
with both pumps off, both fluids recorded present and the dispense request
still recorded as pressed; and from every configuration of the composed system
in which the dispense request is recorded as pressed and the state is not
Dispensing, whenever the state is Dispensing after some further iterations, the
dispense events emitted in between begin with DispenseStop, DispenseStart. -/
theorem C19_held_button_needs_release :
    (is_dispense 6 = 1 ∧ is_dispense 4 = 1 ∧
      emitted 3 Detector.boot [6, 4, 6] =
        [TRANSITION_DISPENSE_START, TRANSITION_WATER_LOW, TRANSITION_WATER_HI] ∧
      (main_loop 3 (main_init hw_reset) [6, 4, 6]).state = STATE_IDLE ∧
      water_is_on (main_loop 3 (main_init hw_reset) [6, 4, 6]).hw = false ∧
      wine_is_on (main_loop 3 (main_init hw_reset) [6, 4, 6]).hw = false ∧
      (main_loop 3 (main_init hw_reset) [6, 4, 6]).det.water_float = 0 ∧
      (main_loop 3 (main_init hw_reset) [6, 4, 6]).det.wine_float = 0 ∧
      (main_loop 3 (main_init hw_reset) [6, 4, 6]).det.dispense_switch = 1) ∧
    (∀ (h : Hw) (n : Nat) (pins : List Nat),
      (main_loop n (main_init h) pins).det.dispense_switch ≠ 0 →
      (main_loop n (main_init h) pins).state ≠ STATE_DISPENSE →
      ∀ (k : Nat) (pins' : List Nat),
        (main_loop k (main_loop n (main_init h) pins) pins').state = STATE_DISPENSE →
        (dispense_events (emitted k (main_loop n (main_init h) pins).det pins')).take 2 =
          [TRANSITION_DISPENSE_STOP, TRANSITION_DISPENSE_START]) := by
  refine ⟨by decide, ?_⟩
  intro h n pins hds hs k pins' hend
  have hc := (coherent_main_loop n (main_init h) pins (coherent_main_init h)).tracks
  have hcar : (main_loop n (main_init h) pins).new_state =
      (main_loop n (main_init h) pins).state := by
    rcases hc with ⟨_, _, hboot⟩ | ⟨h1, _⟩
    · rw [hboot] at hds; exact absurd rfl hds
    · exact h1
  exact dispensing_after_held k _ pins' hcar hs hds hend

theorem C19_held_button_needs_release_witness :
    (dispense_events (emitted 2 (main_loop 3 (main_init hw_reset) [6, 4, 6]).det [7, 6])).take 2 =
      [TRANSITION_DISPENSE_STOP, TRANSITION_DISPENSE_START] :=
  C19_held_button_needs_release.2 hw_reset 3 [6, 4, 6] (by decide) (by decide) 2 [7, 6]
    (by decide)

/-! ## The composed system: events without a rule -/

/-- C3: in the composed system (control loop of `main` fed by `get_transition`
over any sequence of sensor snapshots, from power-up), at every iteration, the
first one after power-up included: when the event that `get_transition` returns
has no rule for the current state, the iteration leaves the current state as it
was; and the current state is one of the five machine states in every
configuration, never a value outside them. -/
theorem C3_unmatched_keeps_state (h : Hw) (n : Nat) (pins : List Nat) :
    (∀ pins' r, get_transition (main_loop n (main_init h) pins).det pins' = some r →
      table_lookup (main_loop n (main_init h) pins).state r.trans = none →
      (main_loop 1 (main_loop n (main_init h) pins) pins').state =
        (main_loop n (main_init h) pins).state) ∧
    is_machine_state (main_loop n (main_init h) pins).state = true := by
  have hc := coherent_main_loop n (main_init h) pins (coherent_main_init h)
  refine ⟨?_, coherent_machine_state _ hc⟩
  intro pins' r hr hno
  obtain ⟨pina, _, hp, _⟩ := get_transition_some _ pins' r hr
  have hone : (main_loop 1 (main_loop n (main_init h) pins) pins').state =
      (main_loop n (main_init h) pins).new_state := by
    simp only [main_loop, hr]
    rw [main_iter_state]
    exact scanned_none _ r.trans hno
  rw [hone]
  rcases hc.tracks with ⟨hidle, _, hboot⟩ | ⟨hcar, _⟩
  · exfalso
    rw [hboot] at hp
    rw [hidle] at hno
    rcases get_transition_pass_cases _ pina r.trans r.det hp with
      ⟨_, he, _⟩ | ⟨_, _, he, _⟩ | ⟨_, _, _, he, _⟩ <;>
      rw [he] at hno <;> exact absurd hno (by decide)
  · exact hcar

theorem C3_unmatched_keeps_state_witness :
    (main_loop 1 (main_loop 1 (main_init hw_reset) [5]) [4]).state = STATE_OUT_OF_WATER ∧
    is_machine_state (main_loop 1 (main_init hw_reset) [5]).state = true :=
  ⟨(C3_unmatched_keeps_state hw_reset 1 [5]).1 [4]
      ⟨TRANSITION_DISPENSE_START, ⟨1, 0, 1⟩, [], 0⟩ (by decide) (by decide),
   (C3_unmatched_keeps_state hw_reset 1 [5]).2⟩

end W2W
